import Mathlib

/-!
Verification of the voice-to-invoice session state machine.

This file shallowly embeds the two session-store variants of the repository
(`session_store.py`, the combined "item_N" flow used by `main.py`, and
`session_store_aligned.py`, the per-field flow) together with the data model
from `models.py`, and proves or refutes the frozen claims about them.

Modelling conventions, used throughout:
- Python dict-shaped sessions become Lean structures; JSON (de)serialization
  through the persistence layer (`model_dump(mode='json')` on write,
  re-parsing on read) is modelled as the identity on typed values.
- Python floats become `PyFloat` values: exact rationals for finite values
  (the IEEE rounding of decimal literals is not modelled; no claim depends on
  it) together with `nan` and signed infinity, which both `float(str)` and
  `json.loads` can produce; `float(str)` and `int(str)` are modelled by
  executable parsers of their full decimal grammars.
- Exceptions become explicit error values; a store operation returns the
  (possibly mutated, as in Python) session together with an optional raised
  error.  The persistence collaborator is a boolean parameter: `true` means
  `db.update_session` succeeded, `false` means it raised.
-/

namespace VoiceInvoice

/-- `datetime.date`: a calendar date, as carried by `InvoiceDetails.due_date`
in `models.py`. -/
structure Date where
  year : Nat
  month : Nat
  day : Nat
deriving DecidableEq, Repr

/-- `models.InvoiceDetails.type`: the `Literal["deposit", "works_completed"]`
pydantic field. -/
inductive InvoiceType
  | deposit
  | works_completed
deriving DecidableEq, Repr

/-- A Python float as this flow observes one: an exact rational for finite
values (the IEEE rounding of decimal literals is not modelled; no claim
depends on it), or one of the non-finite floats `nan` and signed infinity,
which both `float()` and `json.loads` can produce. -/
inductive PyFloat
  | num (q : ℚ)
  | nan
  | inf (neg : Bool)
deriving DecidableEq, Repr

/-- Negation of a float (`nan` has no sign this flow can observe). -/
def PyFloat.negate : PyFloat → PyFloat
  | .num q => .num (-q)
  | .nan => .nan
  | .inf b => .inf (!b)

/-- The Python comparison `value <= 0` on a float: false whenever `nan` is
involved, true for negative infinity. -/
def PyFloat.le0 : PyFloat → Bool
  | .num q => decide (q ≤ 0)
  | .nan => false
  | .inf b => b

/-- `models.ClientInfo`. -/
structure ClientInfo where
  name : String
  address : String
deriving DecidableEq, Repr

/-- `models.InvoiceDetails`. -/
structure InvoiceDetails where
  type : InvoiceType
  due_date : Date
deriving DecidableEq, Repr

/-- `models.InvoiceItem`: rates are optional with default 0.0 and carry no
range constraint in the source model; `float` fields can hold any Python
float, non-finite values included (pydantic's default `allow_inf_nan`). -/
structure InvoiceItem where
  description : String
  value : PyFloat
  vat_rate : PyFloat := .num 0
  cis_rate : PyFloat := .num 0
  retention_rate : PyFloat := .num 0
  discount_rate : PyFloat := .num 0
deriving DecidableEq, Repr

/-- `models.Invoice`. -/
structure Invoice where
  reference_number : String
  client : ClientInfo
  details : InvoiceDetails
  items : List InvoiceItem
deriving DecidableEq, Repr

/-! ### String primitives

The Lean standard library's `String.trim`, `splitOn`, `startsWith`, … are
byte-position based; the Python string operations of the source are instead
modelled directly on character lists, with the same semantics. -/

/-- Python `str.strip()`: remove leading and trailing whitespace. -/
def pyStrip (s : String) : String :=
  String.mk (((s.toList.dropWhile Char.isWhitespace).reverse.dropWhile
    Char.isWhitespace).reverse)

/-- Python `str.split(sep)` for a one-character separator, on character
lists: `"".split(sep)` is `[""]`, separators at the ends produce empty
groups. -/
def splitOnChar (sep : Char) : List Char → List (List Char)
  | [] => [[]]
  | c :: rest =>
      let r := splitOnChar sep rest
      if c = sep then [] :: r
      else
        match r with
        | g :: gs => (c :: g) :: gs
        | [] => [[c]]

/-- Python `str.split(sep)` for a one-character separator. -/
def pySplit (s : String) (sep : Char) : List String :=
  (splitOnChar sep s.toList).map String.mk

/-- Python `str.startswith(pre)`. -/
def pyStartsWith (s pre : String) : Bool :=
  s.toList.take pre.toList.length == pre.toList

/-- Python `str.lower()` (ASCII, which is all this flow compares). -/
def pyLower (s : String) : String :=
  String.mk (s.toList.map Char.toLower)

/-- Python `str.upper()` (ASCII). -/
def pyUpper (s : String) : String :=
  String.mk (s.toList.map Char.toUpper)

/-- Python `s[:n]`. -/
def pyTake (s : String) (n : Nat) : String :=
  String.mk (s.toList.take n)

/-! ### Python numeric and date primitives -/

/-- Value of a nonempty all-digit character list, `none` otherwise. -/
def digitsVal? (cs : List Char) : Option Nat :=
  if cs.isEmpty then none
  else cs.foldlM (fun acc c => if c.isDigit then some (acc * 10 + (c.toNat - 48)) else none) 0

/-- Value of an all-digit character list with no emptiness requirement
(caller has checked the digits); underscores are skipped by the callers. -/
def digitsVal (cs : List Char) : Nat :=
  cs.foldl (fun acc c => acc * 10 + (c.toNat - 48)) 0

/-- A `digitpart` of the Python numeric grammar: digits with single
underscores strictly between digits (`1_0` but not `_1`, `1_` or `1__0`). -/
def digitpartOk : List Char → Bool
  | [] => false
  | [c] => c.isDigit
  | c :: '_' :: rest => c.isDigit && digitpartOk rest
  | c :: rest => c.isDigit && digitpartOk rest

/-- Value of a valid `digitpart`, `none` otherwise. -/
def digitpartVal? (cs : List Char) : Option Nat :=
  if digitpartOk cs then some (digitsVal (cs.filter (fun c => c ≠ '_'))) else none

/-- Model of Python `int(s)` on decimal integer literals: surrounding
whitespace stripped, optional sign, then a digit part (underscores between
digits allowed, as in CPython); anything else raises ValueError, modelled
as `none`. -/
def pyInt? (s : String) : Option Int :=
  match (pyStrip s).toList with
  | '-' :: rest => (digitpartVal? rest).map (fun n => -(n : Int))
  | '+' :: rest => (digitpartVal? rest).map (fun n => (n : Int))
  | cs => (digitpartVal? cs).map (fun n => (n : Int))

/-- The exact rational value of a decimal literal with integer digits `ip`,
fraction digits `fp` and decimal exponent `e` (underscores are filtered
here). -/
def decValue (ip fp : List Char) (e : Int) : ℚ :=
  let m : Int := (digitsVal ((ip ++ fp).filter (fun c => c ≠ '_')) : Int)
  let k : Int := e - ((fp.filter (fun c => c ≠ '_')).length : Int)
  if 0 ≤ k then mkRat (m * 10 ^ k.toNat) 1 else mkRat m (10 ^ (-k).toNat)

/-- Split a numeric literal at its first exponent marker `e`/`E`. -/
def splitExp (cs : List Char) : List Char × Option (List Char) :=
  match cs.findIdx? (fun c => c = 'e' || c = 'E') with
  | none => (cs, none)
  | some i => (cs.take i, some (cs.drop (i + 1)))

/-- The mantissa of the Python float grammar: `D`, `D.`, `D.D` or `.D` with
`D` a digit part; returns the integer and fraction digit lists. -/
def parseMantissa? (cs : List Char) : Option (List Char × List Char) :=
  match splitOnChar '.' cs with
  | [ip] => if digitpartOk ip then some (ip, []) else none
  | [ip, fp] =>
      if ip.isEmpty && fp.isEmpty then none
      else if (ip.isEmpty || digitpartOk ip) && (fp.isEmpty || digitpartOk fp) then
        some (ip, fp)
      else none
  | _ => none

/-- The signed exponent after the `e` marker. -/
def parseExpSigned? (cs : List Char) : Option Int :=
  match cs with
  | '-' :: rest => (digitpartVal? rest).map (fun n => -(n : Int))
  | '+' :: rest => (digitpartVal? rest).map (fun n => (n : Int))
  | rest => (digitpartVal? rest).map (fun n => (n : Int))

/-- The unsigned body of the Python `float` grammar: `inf`/`infinity`/`nan`
case-insensitively, or a mantissa with an optional exponent. -/
def pyFloatBody? (cs : List Char) : Option PyFloat :=
  let low := cs.map Char.toLower
  if low = "inf".toList || low = "infinity".toList then some (.inf false)
  else if low = "nan".toList then some .nan
  else
    match splitExp cs with
    | (mant, none) => (parseMantissa? mant).map (fun p => .num (decValue p.1 p.2 0))
    | (mant, some ecs) =>
        match parseMantissa? mant, parseExpSigned? ecs with
        | some p, some e => some (.num (decValue p.1 p.2 e))
        | _, _ => none

/-- Model of Python `float(s)`: surrounding whitespace stripped, optional
sign, then the full decimal float grammar including fraction, exponent,
underscore digit separators, `inf` and `nan` (ASCII inputs; finite values
kept as exact rationals).  A string outside the grammar raises ValueError,
modelled as `none`. -/
def pyFloat? (s : String) : Option PyFloat :=
  match (pyStrip s).toList with
  | '-' :: rest => (pyFloatBody? rest).map PyFloat.negate
  | '+' :: rest => pyFloatBody? rest
  | cs => pyFloatBody? cs

/-- Gregorian leap-year rule. -/
def isLeap (y : Nat) : Bool :=
  (y % 4 = 0 && y % 100 ≠ 0) || y % 400 = 0

/-- Days in a Gregorian month. -/
def daysInMonth (y m : Nat) : Nat :=
  if m = 2 then (if isLeap y then 29 else 28)
  else if m = 4 || m = 6 || m = 9 || m = 11 then 30
  else 31

/-- Model of `datetime.fromisoformat(s).date()` on `"YYYY-MM-DD"` date
strings — the form `store_step_result` requests from the LLM and the only
one the flows under claim feed it (datetime-suffixed forms, which
`fromisoformat` also accepts, are outside the model).  The day is checked
against the month's calendar length, as `fromisoformat` does.  Malformed
input raises ValueError, modelled as `none`. -/
def parseIsoDate? (s : String) : Option Date :=
  match splitOnChar '-' s.toList with
  | [y, m, d] =>
      if y.length = 4 && m.length = 2 && d.length = 2 then
        match digitsVal? y, digitsVal? m, digitsVal? d with
        | some yn, some mn, some dn =>
            if 1 ≤ mn && mn ≤ 12 && 1 ≤ dn && dn ≤ daysInMonth yn mn then
              some ⟨yn, mn, dn⟩
            else none
        | _, _, _ => none
      else none
  | _ => none

/-- The day after a date. -/
def nextDay (d : Date) : Date :=
  if d.day < daysInMonth d.year d.month then ⟨d.year, d.month, d.day + 1⟩
  else if d.month < 12 then ⟨d.year, d.month + 1, 1⟩
  else ⟨d.year + 1, 1, 1⟩

/-- `date + timedelta(days=n)`, one day at a time. -/
@[irreducible] def addDays (d : Date) : Nat → Date
  | 0 => d
  | n + 1 => addDays (nextDay d) n

/-! ### JSON values

`store_step_result` receives LLM output as text and parses it with
`json.loads` (after cleaning, with a regex fallback in the combined variant).
JSON values are modelled by an inductive; for the combined variant the whole
text front-end (`clean_json_response` + `json.loads` + regex fallback) is
modelled at its boundary, as an `Option Json` input: `some j` when it
produced a dict-like value `j`, `none` when parsing failed entirely
(`json.JSONDecodeError` reaching the branch, or the item branch raising its
own `InputValidationError`). -/

inductive Json
  | null
  | bool (b : Bool)
  | num (v : PyFloat)
  | str (s : String)
  | arr (elems : List Json)
  | obj (fields : List (String × Json))

/-- `dict.get(key)`: first binding of `key`, `none` when missing or when the
value is not a dict (the source would raise AttributeError, folded into the
missing case because both end in the same validation error). -/
def Json.get? : Json → String → Option Json
  | .obj fields, k => fields.lookup k
  | _, _ => none

/-- Python truthiness of a JSON value, as used by `if not data.get("name")`. -/
def Json.truthy : Json → Bool
  | .null => false
  | .bool b => b
  | .num (.num q) => q ≠ 0
  | .num .nan => true
  | .num (.inf _) => true
  | .str s => s ≠ ""
  | .arr xs => !xs.isEmpty
  | .obj kvs => !kvs.isEmpty

/-- Truthiness of `dict.get(key)`: a missing key yields `None`, which is
falsy. -/
def truthyO (o : Option Json) : Bool :=
  (o.map Json.truthy).getD false

/-- Python `float(x)` applied to a decoded JSON value, as in
`float(item_data.get("value", 0))`: numbers pass through, numeric strings are
parsed, booleans coerce to 1/0, anything else raises TypeError (`none`). -/
def Json.toFloat? : Json → Option PyFloat
  | .num v => some v
  | .str s => pyFloat? s
  | .bool b => some (.num (if b then 1 else 0))
  | _ => none

/-! ### A restricted `json.loads`

The aligned variant calls `json.loads` directly on the raw step result.  The
flow only ever exchanges flat one-level objects with string or numeric
values (`step_handlers.py` requests exactly these shapes), so the model
parses exactly those: an object of string keys mapping to string literals
(without escape sequences) or decimal numbers, including the non-standard
`NaN`/`Infinity`/`-Infinity` tokens Python's `json.loads` accepts.  Any
other input is a decode failure (`none`), as it would be for the malformed
inputs the claims exercise. -/

/-- Skip spaces, tabs and newlines. -/
def skipWs : List Char → List Char
  | c :: rest => if c = ' ' || c = '\t' || c = '\n' || c = '\r' then skipWs rest else c :: rest
  | [] => []

/-- Parse a JSON string literal without escapes: consume a leading quote,
characters up to the closing quote. -/
def parseStringLit : List Char → Option (String × List Char)
  | '"' :: rest => go rest []
  | _ => none
where
  go : List Char → List Char → Option (String × List Char)
    | [], _ => none
    | '"' :: rest, acc => some (String.mk acc.reverse, rest)
    | '\\' :: _, _ => none
    | c :: rest, acc => go rest (c :: acc)

/-- Parse the optional exponent of a JSON number, defaulting to 0. -/
def parseJsonExp (cs : List Char) : Int × List Char :=
  match cs with
  | c :: rest =>
      if c = 'e' || c = 'E' then
        match rest with
        | '-' :: rest2 =>
            let ds := rest2.takeWhile Char.isDigit
            if ds.isEmpty then (0, cs)
            else (-(digitsVal ds : Int), rest2.dropWhile Char.isDigit)
        | '+' :: rest2 =>
            let ds := rest2.takeWhile Char.isDigit
            if ds.isEmpty then (0, cs)
            else ((digitsVal ds : Int), rest2.dropWhile Char.isDigit)
        | rest2 =>
            let ds := rest2.takeWhile Char.isDigit
            if ds.isEmpty then (0, cs)
            else ((digitsVal ds : Int), rest2.dropWhile Char.isDigit)
      else (0, cs)
  | [] => (0, cs)

/-- Parse a JSON number literal: optional minus, digits, optional fraction,
optional exponent (no underscores, unlike the Python float grammar). -/
def parseNumberLit (cs : List Char) : Option (PyFloat × List Char) :=
  let (neg, cs1) := match cs with
    | '-' :: rest => (true, rest)
    | _ => (false, cs)
  let intDigits := cs1.takeWhile Char.isDigit
  let afterInt := cs1.dropWhile Char.isDigit
  if intDigits.isEmpty then none
  else
    let fracPart : Option (List Char × List Char) :=
      match afterInt with
      | '.' :: rest =>
          let fds := rest.takeWhile Char.isDigit
          if fds.isEmpty then none else some (fds, rest.dropWhile Char.isDigit)
      | _ => some ([], afterInt)
    match fracPart with
    | none => none
    | some (fracDigits, afterFrac) =>
        let (e, rest) := parseJsonExp afterFrac
        let q := decValue intDigits fracDigits e
        some (.num (if neg then -q else q), rest)

/-- Parse a scalar JSON value: string, number, the literals true, false and
null, or the non-standard `NaN`, `Infinity` and `-Infinity` tokens that
`json.loads` accepts. -/
def parseScalar (cs : List Char) : Option (Json × List Char) :=
  match parseStringLit cs with
  | some (s, rest) => some (.str s, rest)
  | none =>
      match parseNumberLit cs with
      | some (v, rest) => some (.num v, rest)
      | none =>
          if cs.take 4 = "true".toList then some (.bool true, cs.drop 4)
          else if cs.take 5 = "false".toList then some (.bool false, cs.drop 5)
          else if cs.take 4 = "null".toList then some (.null, cs.drop 4)
          else if cs.take 3 = "NaN".toList then some (.num .nan, cs.drop 3)
          else if cs.take 8 = "Infinity".toList then some (.num (.inf false), cs.drop 8)
          else if cs.take 9 = "-Infinity".toList then some (.num (.inf true), cs.drop 9)
          else none

/-- Parse the members of an object after the opening brace; `fuel` bounds the
number of members. -/
def parseMembers (fuel : Nat) (cs : List Char) (acc : List (String × Json)) :
    Option (List (String × Json) × List Char) :=
  match fuel with
  | 0 => none
  | fuel + 1 =>
      match parseStringLit (skipWs cs) with
      | none => none
      | some (k, rest) =>
          match skipWs rest with
          | ':' :: rest =>
              match parseScalar (skipWs rest) with
              | none => none
              | some (v, rest) =>
                  match skipWs rest with
                  | ',' :: rest => parseMembers fuel rest (acc ++ [(k, v)])
                  | '\x7d' :: rest => some (acc ++ [(k, v)], rest)
                  | _ => none
          | _ => none

/-- Restricted model of `json.loads` on the flat objects this flow exchanges
(see the section comment above). -/
def loads? (s : String) : Option Json :=
  match skipWs s.toList with
  | '\x7b' :: rest =>
      match skipWs rest with
      | '\x7d' :: rest => if (skipWs rest).isEmpty then some (.obj []) else none
      | rest =>
          match parseMembers (rest.length + 1) rest [] with
          | some (kvs, rest) => if (skipWs rest).isEmpty then some (.obj kvs) else none
          | none => none
  | _ => none

/-! ### Errors

Python exceptions raised out of the session-store operations. -/

/-- Exception raised to the caller of a session-store operation.
`inputValidation` is `session_store.InputValidationError`;
`validationError` is a pydantic `ValidationError` (which, it turns out, no
operation of this repository can actually raise — see `Aligned.convertErr`);
`valueError` and `typeError` are the built-in exceptions; `systemError`
stands for any collaborator failure surfaced as-is (e.g. a sqlite3 error) —
the taxonomy the spec calls a generic system failure. -/
inductive PyError
  | inputValidation (msg : String)
  | validationError (msg : String)
  | valueError (msg : String)
  | typeError (msg : String)
  | systemError (msg : String)
deriving DecidableEq, Repr

/-- Is this error the combined variant's user-input validation error type? -/
def PyError.isInputValidation : PyError → Bool
  | .inputValidation _ => true
  | _ => false

/-- Does an operation outcome (`none` = no exception) consist at worst of an
`InputValidationError`? -/
def errIsInputValidation : Option PyError → Bool
  | none => true
  | some e => e.isInputValidation

/-- Exception arising inside the `try` body of `store_step_result`, before
the `except` clauses dispatch on it: a `json.JSONDecodeError`, a validation
error raised by the branch itself, or any other exception (pydantic
coercion failures, TypeError from `float`, a persistence error). -/
inductive InnerErr
  | jsonDecode (msg : String)
  | validation (msg : String)
  | other (msg : String)
deriving DecidableEq, Repr

/-! ### The combined "item_N" variant: `session_store.py`

This is the variant `main.py` imports.  One step per section; each `item_N`
step takes a single combined JSON blob and appends a full item. -/

namespace Store

/-- Session document of `session_store.py` (`get_session` initial shape).
`created_at` and the HTTP token are opaque to every operation under claim
and are omitted. -/
structure Session where
  step : String
  client_info : Option ClientInfo
  invoice_details : Option InvoiceDetails
  items : List InvoiceItem
  reference_number : String
  session_id : String
deriving DecidableEq, Repr

/-- The fresh session `get_session` creates for an unknown id:
`reference_number = f"INV-{session_id[:8].upper()}"`. -/
def freshSession (session_id : String) : Session :=
  { step := "welcome"
    client_info := none
    invoice_details := none
    items := []
    reference_number := "INV-" ++ pyUpper (pyTake session_id 8)
    session_id := session_id }

/-- The step transition of `session_store.advance_step` as a function of the
current step string.  A step beginning with `item_` is parsed with
`int(current_step.split("_")[1])`, which raises ValueError on a non-numeric
suffix; any step matching no branch falls through to `done`. -/
def nextStepOf (cur : String) : Except PyError String :=
  if cur = "welcome" then .ok "client_info"
  else if cur = "client_info" then .ok "invoice_details"
  else if cur = "invoice_details" then .ok "item_1"
  else if pyStartsWith cur "item_" then
    match pyInt? ((pySplit cur '_').getD 1 "") with
    | none => .error (.valueError ("invalid literal for int() with base 10: " ++
        (pySplit cur '_').getD 1 ""))
    | some n =>
        if n ≥ 30 then .ok "done"
        else .ok ("item_" ++ toString (n + 1))
  else .ok "done"

/-- `session_store.advance_step`: write the transition of `nextStepOf` into
the session.  The trailing `save_session` call discards its boolean result
and does not affect the returned step, so it is omitted. -/
def advance_step (s : Session) : Except PyError Session :=
  (nextStepOf s.step).map (fun st => { s with step := st })

/-- The `client_info` branch of `store_step_result`: truthiness checks with
specific messages, then `ClientInfo` construction (pydantic rejects
non-string fields; that failure is `InnerErr.other`), then the session
mutation. -/
def storeClientInfo (s : Session) (input : Option Json) : Except InnerErr Session :=
  match input with
  | none => .error (.jsonDecode "Could not parse client info")
  | some j =>
      if !truthyO (j.get? "name") then
        .error (.validation "Client name is missing. Please say the full name clearly.")
      else if !truthyO (j.get? "address") then
        .error (.validation "Client address is missing. Please provide the complete address.")
      else
        match j.get? "name", j.get? "address" with
        | some (.str n), some (.str a) => .ok { s with client_info := some ⟨n, a⟩ }
        | _, _ => .error (.other "validation error for ClientInfo")

/-- The JSON `"type"` value as an invoice type, when it is one of the two
accepted strings. -/
def invoiceTypeOf : Option Json → Option InvoiceType
  | some (.str "deposit") => some .deposit
  | some (.str "works_completed") => some .works_completed
  | _ => none

/-- The JSON `"due_date"` value parsed as a date.  A non-string value makes
`datetime.fromisoformat` raise TypeError, which the bare `except:` turns
into the same invalid-date error as a malformed string. -/
def dueDateOf : Option Json → Option Date
  | some (.str ds) => parseIsoDate? ds
  | _ => none

/-- The `invoice_details` branch of `store_step_result`: type presence, type
validity, due-date presence, due-date parse, then the session mutation. -/
def storeInvoiceDetails (s : Session) (input : Option Json) : Except InnerErr Session :=
  match input with
  | none => .error (.jsonDecode "Could not parse invoice details")
  | some j =>
      if !truthyO (j.get? "type") then
        .error (.validation "Invoice type is missing.")
      else
        match invoiceTypeOf (j.get? "type") with
        | none => .error (.validation "Invalid invoice type.")
        | some t =>
            if !truthyO (j.get? "due_date") then
              .error (.validation "Payment due date is missing.")
            else
              match dueDateOf (j.get? "due_date") with
              | none => .error (.validation "Invalid date format.")
              | some d => .ok { s with invoice_details := some ⟨t, d⟩ }

/-- The item description as pydantic sees it: `item_data.get("description",
"")` must be a string (non-strings fail model validation). -/
def descOf : Option Json → Option String
  | none => some ""
  | some (.str s) => some s
  | some _ => none

/-- `float(item_data.get(key, 0.0))` for the value or a rate field. -/
def rateOf : Option Json → Option PyFloat
  | none => some (.num 0)
  | some j => j.toFloat?

/-- The `item_N` branch of `store_step_result`: build the `InvoiceItem` with
`float` coercions and defaults, check description non-empty and value
positive, then append.  A front-end parse failure raises the branch's own
`InputValidationError` (inside the `try` body, hence later re-wrapped by the
catch-all). -/
def storeItem (s : Session) (input : Option Json) : Except InnerErr Session :=
  match input with
  | none => .error (.validation "I couldn't understand the item details.")
  | some j =>
      match descOf (j.get? "description"), rateOf (j.get? "value"),
            rateOf (j.get? "vat_rate"), rateOf (j.get? "cis_rate"),
            rateOf (j.get? "retention_rate"), rateOf (j.get? "discount_rate") with
      | some desc, some v, some vat, some cis, some ret, some disc =>
          if desc = "" then
            .error (.validation "Item description is missing.")
          else if v.le0 then
            .error (.validation "Item value must be a positive amount.")
          else
            .ok { s with items := s.items ++ [⟨desc, v, vat, cis, ret, disc⟩] }
      | _, _, _, _, _, _ => .error (.other "could not convert item field")

/-- The step dispatch of `store_step_result`: the `if/elif` chain over the
step name.  Any other step name (including `welcome` and `done`) matches no
branch, so the body proceeds to the save with the session untouched. -/
def storeDispatch (s : Session) (step : String) (input : Option Json) : Except InnerErr Session :=
  if step = "client_info" then storeClientInfo s input
  else if step = "invoice_details" then storeInvoiceDetails s input
  else if pyStartsWith step "item_" then storeItem s input
  else .ok s

/-- The `except` clauses of `store_step_result`: a `json.JSONDecodeError`
gets a step-specific message; every other exception — including a validation
error raised by the branch itself and any persistence error — is caught by
the blanket `except Exception` and re-raised as
`InputValidationError("Failed to process response: ...")`. -/
def convertErr (step : String) : InnerErr → PyError
  | .jsonDecode _ =>
      if step = "client_info" then
        .inputValidation "I couldn't understand the client information."
      else if step = "invoice_details" then
        .inputValidation "I couldn't understand the invoice details."
      else if pyStartsWith step "item_" then
        .inputValidation "I couldn't understand the item details."
      else .inputValidation "I couldn't understand your response. Please try again."
  | .validation m => .inputValidation ("Failed to process response: " ++ m)
  | .other m => .inputValidation ("Failed to process response: " ++ m)

/-- `session_store.store_step_result`.  `input` is the front-end parse of
the LLM text (see the JSON section); `saveOk` is the persistence
collaborator: `false` means `db.update_session` raised, and the raised
sqlite error is then converted by the catch-all like any other exception.
The returned session is the in-memory dict after the call — mutations made
before a failure are kept, as in Python; the failed save means none of them
reached the database. -/
def store_step_result (s : Session) (step : String) (input : Option Json)
    (saveOk : Bool) : Session × Option PyError :=
  match storeDispatch s step input with
  | .error e => (s, some (convertErr step e))
  | .ok s' =>
      if saveOk then (s', none)
      else (s', some (.inputValidation "Failed to process response: database error"))

/-- `session_store.can_generate_invoice`. -/
def can_generate_invoice (s : Session) : Bool :=
  s.client_info.isSome && s.invoice_details.isSome && decide (0 < s.items.length)

/-- `session_store.get_invoice_data`, modelled on the session value the
`get_session` call inside it returns.  Gate on `can_generate_invoice`, then
rebuild the invoice from the stored typed fields; the defensive `except`
branch returning `None` is the final wildcard match. -/
def get_invoice_data (s : Session) : Option Invoice :=
  if can_generate_invoice s then
    match s.client_info, s.invoice_details with
    | some c, some d =>
        some { reference_number := s.reference_number, client := c, details := d,
               items := s.items }
    | _, _ => none
  else none

end Store

/-! ### The aligned per-field variant: `session_store_aligned.py`

One step per item field, with an explicit `add_another` loop.  The spec's
flow description follows this variant. -/

namespace Aligned

/-- `STEP_FLOW` of `session_store_aligned.py`. -/
def STEP_FLOW : List String :=
  ["start", "invoice_type", "client_info", "item_description", "item_value",
   "item_vat", "item_cis", "item_retention", "item_discount", "add_another", "done"]

/-- The `current_item` scratch dict: keys appear as the corresponding steps
are stored.  Rate values are stored by `.get(key, 0.0)` from the decoded
JSON; the numeric coercion pydantic applies when the item is finally built
at the `item_discount` step is modelled at entry time — the two coincide on
the numeric inputs this flow requests, which are the only ones the theorems
below exercise. -/
structure Scratch where
  description : Option String := none
  value : Option PyFloat := none
  vat_rate : Option PyFloat := none
  cis_rate : Option PyFloat := none
  retention_rate : Option PyFloat := none
  discount_rate : Option PyFloat := none
deriving DecidableEq, Repr

/-- Session document of `session_store_aligned.py`.  The
`last_add_another_response` key is absent (`none`) until the first
`add_another` store; `session.get(..., "")` treats absence as `""`. -/
structure Session where
  step : String
  invoice_type : Option InvoiceType
  client_info : Option ClientInfo
  items : List InvoiceItem
  current_item : Scratch
  last_add_another_response : Option String
  reference_number : String
  session_id : String
deriving DecidableEq, Repr

/-- The fresh session `get_session` creates for an unknown id. -/
def freshSession (session_id : String) : Session :=
  { step := "start"
    invoice_type := none
    client_info := none
    items := []
    current_item := {}
    last_add_another_response := none
    reference_number := "INV-" ++ pyUpper (pyTake session_id 8)
    session_id := session_id }

/-- `session_store_aligned.advance_step`: special-case `add_another` on the
last stored response (`add` loops back to `item_description` and clears the
scratch item, anything else goes to `done`); otherwise follow `STEP_FLOW`,
with unknown steps (a `ValueError` from `list.index`) failing closed to
`done`.  This variant performs no save inside `advance_step`. -/
def advance_step (s : Session) : Session :=
  let cur := s.step
  if cur = "add_another" then
    if s.last_add_another_response.getD "" = "add" then
      { s with step := "item_description", current_item := {} }
    else { s with step := "done" }
  else
    match STEP_FLOW.indexOf? cur with
    | some i =>
        if i < STEP_FLOW.length - 1 then { s with step := STEP_FLOW.getD (i + 1) "" }
        else s
    | none => { s with step := "done" }

/-- The `invoice_type` branch of the aligned `store_step_result`. -/
def storeInvoiceType (s : Session) (result : String) : Except InnerErr Session :=
  let t := pyLower (pyStrip result)
  if t = "deposit" then .ok { s with invoice_type := some .deposit }
  else if t = "works_completed" then .ok { s with invoice_type := some .works_completed }
  else .error (.validation ("Invalid invoice type: " ++ t))

/-- The `client_info` branch of the aligned `store_step_result`. -/
def storeClientInfoA (s : Session) (result : String) : Except InnerErr Session :=
  match loads? result with
  | none => .error (.jsonDecode "Expecting value")
  | some j =>
      if !truthyO (j.get? "name") || !truthyO (j.get? "address") then
        .error (.validation "Client name and address are required")
      else
        match j.get? "name", j.get? "address" with
        | some (.str n), some (.str a) => .ok { s with client_info := some ⟨n, a⟩ }
        | _, _ => .error (.other "validation error for ClientInfo")

/-- The `item_description` branch of the aligned `store_step_result`. -/
def storeItemDescription (s : Session) (result : String) : Except InnerErr Session :=
  let d := pyStrip result
  if d = "" then .error (.validation "Item description is required")
  else .ok { s with current_item := { s.current_item with description := some d } }

/-- The `item_value` branch of the aligned `store_step_result`: any float —
negative, `nan` or infinite — is stored without further checks. -/
def storeItemValue (s : Session) (result : String) : Except InnerErr Session :=
  match pyFloat? result with
  | none => .error (.validation ("Invalid value: " ++ result))
  | some v => .ok { s with current_item := { s.current_item with value := some v } }

/-- `vat_data.get(key, 0.0)` followed by the numeric coercion pydantic
applies when the item is finally built at the `item_discount` step (see the
`Scratch` docstring). -/
def rateOfD : Option Json → Option PyFloat
  | none => some (.num 0)
  | some j => j.toFloat?

/-- The `item_vat` branch of the aligned `store_step_result`. -/
def storeItemVat (s : Session) (result : String) : Except InnerErr Session :=
  match loads? result with
  | none => .error (.jsonDecode "Expecting value")
  | some j =>
      match rateOfD (j.get? "vat_rate") with
      | none => .error (.other "could not coerce vat_rate")
      | some r => .ok { s with current_item := { s.current_item with vat_rate := some r } }

/-- The `item_cis` branch of the aligned `store_step_result`. -/
def storeItemCis (s : Session) (result : String) : Except InnerErr Session :=
  match loads? result with
  | none => .error (.jsonDecode "Expecting value")
  | some j =>
      match rateOfD (j.get? "cis_rate") with
      | none => .error (.other "could not coerce cis_rate")
      | some r => .ok { s with current_item := { s.current_item with cis_rate := some r } }

/-- The `item_retention` branch of the aligned `store_step_result`. -/
def storeItemRetention (s : Session) (result : String) : Except InnerErr Session :=
  match loads? result with
  | none => .error (.jsonDecode "Expecting value")
  | some j =>
      match rateOfD (j.get? "retention_rate") with
      | none => .error (.other "could not coerce retention_rate")
      | some r =>
          .ok { s with current_item := { s.current_item with retention_rate := some r } }

/-- The `item_discount` branch of the aligned `store_step_result`: store the
discount rate, then — the scratch dict is now always non-empty — build the
item from the scratch with `.get(key, 0.0)` defaults (a missing description
or value is a KeyError) and append it. -/
def storeItemDiscount (s : Session) (result : String) : Except InnerErr Session :=
  match loads? result with
  | none => .error (.jsonDecode "Expecting value")
  | some j =>
      match rateOfD (j.get? "discount_rate") with
      | none => .error (.other "could not coerce discount_rate")
      | some r =>
          let sc := { s.current_item with discount_rate := some r }
          match sc.description, sc.value with
          | some desc, some v =>
              .ok { s with
                    current_item := sc,
                    items := s.items ++
                      [⟨desc, v, sc.vat_rate.getD (.num 0), sc.cis_rate.getD (.num 0),
                        sc.retention_rate.getD (.num 0),
                        sc.discount_rate.getD (.num 0)⟩] }
          | _, _ => .error (.other "KeyError building InvoiceItem")

/-- The `add_another` branch of the aligned `store_step_result`. -/
def storeAddAnother (s : Session) (result : String) : Except InnerErr Session :=
  let r := pyLower (pyStrip result)
  if r = "add" || r = "submit" then .ok { s with last_add_another_response := some r }
  else .error (.validation ("Invalid response: " ++ r))

/-- The step dispatch of the aligned `store_step_result` (`try` body): the
`if/elif` chain over the step name; any unmatched step is a no-op.  The
`InnerErr` values record which `raise` the branch attempted; none of them
reaches the caller as a validation error — see `convertErr`. -/
def storeDispatch (s : Session) (step result : String) : Except InnerErr Session :=
  if step = "invoice_type" then storeInvoiceType s result
  else if step = "client_info" then storeClientInfoA s result
  else if step = "item_description" then storeItemDescription s result
  else if step = "item_value" then storeItemValue s result
  else if step = "item_vat" then storeItemVat s result
  else if step = "item_cis" then storeItemCis s result
  else if step = "item_retention" then storeItemRetention s result
  else if step = "item_discount" then storeItemDiscount s result
  else if step = "add_another" then storeAddAnother s result
  else .ok s

/-- The exception that actually escapes the aligned `store_step_result` on
any failure.  Every `raise ValidationError(...)` in this module — in the
branches, in the `except json.JSONDecodeError` handler, and in the blanket
`except Exception` handler — constructs pydantic's `ValidationError` from a
bare message string; that construction itself raises TypeError in pydantic
(v1 and v2 alike; the repository is on v2, per the combined variant's
`model_dump` calls).  So whichever path fails, what propagates out of the
function is the constructor's TypeError, never a validation failure.  The
message is representative; the modelled fact is the exception type. -/
def convertErr : InnerErr → PyError
  | _ => .typeError "ValidationError cannot be constructed from a message string"

/-- `session_store_aligned.store_step_result`: dispatch, then save; any
failure — including a persistence error raised by the save — reaches an
`except` handler whose `ValidationError` construction raises TypeError (see
`convertErr`); session mutations made before a failure are kept in
memory. -/
def store_step_result (s : Session) (step result : String) (saveOk : Bool) :
    Session × Option PyError :=
  match storeDispatch s step result with
  | .error e => (s, some (convertErr e))
  | .ok s' =>
      if saveOk then (s', none)
      else (s', some (.typeError "ValidationError cannot be constructed from a message string"))

/-- `session_store_aligned.get_invoice_data`, modelled on the session the
inner `get_session` returns, with `now` the value of
`datetime.now(timezone.utc).date()` at the moment of the call: the due date
is recomputed as `now + timedelta(days=30)`, not read from the session.
Missing sections make the `Invoice` construction raise, and the `except`
returns `None` — the wildcard match. -/
def get_invoice_data (s : Session) (now : Date) : Option Invoice :=
  if s.step ≠ "done" then none
  else
    match s.client_info, s.invoice_type with
    | some c, some t =>
        some { reference_number := s.reference_number, client := c,
               details := { type := t, due_date := addDays now 30 }, items := s.items }
    | _, _ => none

end Aligned

/-! ### The HTTP caller's discipline

`main.py` (`/start` and `/step`) drives the combined store: `/start` moves a
`welcome` session to `client_info`; `/step` refuses `welcome`, stores the
result for the session's current step and advances only on success.  The
aligned variant has the same store-then-advance shape with no `welcome`
special case (its initial `start` step is an unhandled no-op store). -/

namespace Store

/-- The guard of `main.py` `step_handler`: the only step at which a voice
submission is rejected before processing. -/
def stepHandlerRejects (step : String) : Bool :=
  step = "welcome"

/-- One successful `/step` request: reject `welcome`, store the (parsed)
result for the session's current step against a healthy database, advance on
success.  `none` when the request would have failed. -/
def runStep (s : Session) (input : Option Json) : Option Session :=
  if s.step = "welcome" then none
  else
    match store_step_result s s.step input true with
    | (s', none) => (advance_step s').toOption
    | (_, some _) => none

/-- A sequence of successful `/step` requests. -/
def runSteps (s : Session) : List (Option Json) → Option Session
  | [] => some s
  | input :: rest =>
      match runStep s input with
      | some s' => runSteps s' rest
      | none => none

/-- Session states reachable through the HTTP caller's discipline: a fresh
session, the `/start` transition out of `welcome`, and `step_handler`'s
store-then-advance on success. -/
inductive Reachable : Session → Prop
  | fresh (sid : String) : Reachable (freshSession sid)
  | start {s : Session} : Reachable s → s.step = "welcome" →
      Reachable { s with step := "client_info" }
  | step {s s' : Session} {input : Option Json} : Reachable s →
      runStep s input = some s' → Reachable s'

/-- Iterated `advance_step`. -/
def advanceRun (s : Session) : Nat → Except PyError Session
  | 0 => .ok s
  | n + 1 =>
      match advance_step s with
      | .ok s' => advanceRun s' n
      | .error e => .error e

/-- The state invariant maintained by the caller's discipline: the reference
number keeps its creation-time value, and the step determines which sections
are already populated — in particular at step `item_n` exactly `n - 1` items
have been accumulated, so the flow caps the list at 30. -/
def SessionInv (s : Session) : Prop :=
  s.reference_number = "INV-" ++ pyUpper (pyTake s.session_id 8) ∧
  ((s.step = "welcome" ∧ s.items = [])
   ∨ (s.step = "client_info" ∧ s.items = [])
   ∨ (s.step = "invoice_details" ∧ s.client_info.isSome = true ∧ s.items = [])
   ∨ (∃ n : Nat, 1 ≤ n ∧ n ≤ 30 ∧ s.step = "item_" ++ toString n ∧
       s.client_info.isSome = true ∧ s.invoice_details.isSome = true ∧
       s.items.length = n - 1)
   ∨ (s.step = "done" ∧ s.client_info.isSome = true ∧ s.invoice_details.isSome = true ∧
       s.items.length = 30))

end Store

namespace Aligned

/-- One successful store-then-advance exchange against the aligned store
(the discipline of the per-field flow). -/
def runStep (s : Session) (result : String) : Option Session :=
  match store_step_result s s.step result true with
  | (s', none) => some (advance_step s')
  | (_, some _) => none

/-- A sequence of successful exchanges. -/
def runSteps (s : Session) : List String → Option Session
  | [] => some s
  | r :: rest =>
      match runStep s r with
      | some s' => runSteps s' rest
      | none => none

/-- Session states reachable in the aligned variant by successful
store-then-advance exchanges from a fresh session. -/
inductive Reachable : Session → Prop
  | fresh (sid : String) : Reachable (freshSession sid)
  | step {s s' : Session} {result : String} : Reachable s →
      runStep s result = some s' → Reachable s'

/-- Iterated `advance_step`. -/
def advanceRun (s : Session) : Nat → Session
  | 0 => s
  | n + 1 => advanceRun (advance_step s) n

end Aligned

/-! ### Concrete sessions and inputs used by witnesses and counterexamples -/

namespace Store

/-- Decoded client JSON `{"name": "Acme Ltd", "address": "1 High St"}`. -/
def clientJson : Json :=
  .obj [("name", .str "Acme Ltd"), ("address", .str "1 High St")]

/-- Decoded invoice-details JSON
`{"type": "deposit", "due_date": "2025-01-15"}`. -/
def detailsJson : Json :=
  .obj [("type", .str "deposit"), ("due_date", .str "2025-01-15")]

/-- Decoded item JSON `{"description": "Labour", "value": 100}`: no rate
keys, so all rates default. -/
def itemJson : Json :=
  .obj [("description", .str "Labour"), ("value", .num (.num 100))]

/-- Decoded item JSON with an out-of-range rate:
`{"description": "Labour", "value": 100, "vat_rate": 250}`. -/
def itemVat250Json : Json :=
  .obj [("description", .str "Labour"), ("value", .num (.num 100)),
        ("vat_rate", .num (.num 250))]

/-- Decoded item JSON `\x7b"description": "Labour", "value": NaN\x7d` —
Python's `json.loads` accepts the bare `NaN` token by default. -/
def itemNanJson : Json :=
  .obj [("description", .str "Labour"), ("value", .num .nan)]

/-- The item the flow builds from `itemJson`. -/
def labourItem : InvoiceItem :=
  { description := "Labour", value := .num 100 }

/-- A session two items into the combined flow: reachable (see
`reachable_ex3`), still three steps short of terminal, yet already carrying
everything `can_generate_invoice` asks for. -/
def exItem3 : Session :=
  { step := "item_3"
    client_info := some ⟨"Acme Ltd", "1 High St"⟩
    invoice_details := some ⟨.deposit, ⟨2025, 1, 15⟩⟩
    items := [labourItem, labourItem]
    reference_number := "INV-SESS"
    session_id := "sess" }

/-- The invoice `get_invoice_data` assembles from `exItem3`. -/
def exInvoice3 : Invoice :=
  { reference_number := "INV-SESS"
    client := ⟨"Acme Ltd", "1 High St"⟩
    details := ⟨.deposit, ⟨2025, 1, 15⟩⟩
    items := [labourItem, labourItem] }

end Store

namespace Aligned

/-- The item one pass of the aligned item loop builds from the inputs of
`loopInputs`. -/
def labourItemA : InvoiceItem :=
  { description := "Labour", value := .num 100, vat_rate := .num 20 }

/-- The aligned session at the top of the item loop, parametrized by the
accumulated items and the last add-another response. -/
def midSession (items : List InvoiceItem) (last : Option String) : Session :=
  { step := "item_description"
    invoice_type := some .deposit
    client_info := some ⟨"Acme Ltd", "1 High St"⟩
    items := items
    current_item := {}
    last_add_another_response := last
    reference_number := "INV-SESS"
    session_id := "sess" }

/-- Raw inputs of one pass of the item loop ending in an `add` response:
description, value, the four rate JSONs, then `add`. -/
def loopInputs : List String :=
  ["Labour", "100", "\x7b\"vat_rate\": 20.0\x7d", "\x7b\"cis_rate\": 0.0\x7d",
   "\x7b\"retention_rate\": 0.0\x7d", "\x7b\"discount_rate\": 0.0\x7d", "add"]

/-- Raw inputs leading a fresh aligned session to the top of the item loop:
a no-op `start` submission, the invoice type, the client JSON. -/
def entryInputs : List String :=
  ["go", "deposit", "\x7b\"name\": \"Acme Ltd\", \"address\": \"1 High St\"\x7d"]

/-- An aligned session mid-flow (step `item_3` does not exist in this
variant; `item_vat` is the analogous pre-terminal position), used to witness
that assembly refuses pre-terminal sessions. -/
def exPreTerminal : Session :=
  { step := "item_vat"
    invoice_type := some .deposit
    client_info := some ⟨"Acme Ltd", "1 High St"⟩
    items := []
    current_item := { description := some "Labour", value := some (.num 100) }
    last_add_another_response := none
    reference_number := "INV-SESS"
    session_id := "sess" }

/-- A completed aligned session at the terminal step, used to exhibit that
assembly recomputes the due date from the clock. -/
def exDone : Session :=
  { step := "done"
    invoice_type := some .deposit
    client_info := some ⟨"Acme Ltd", "1 High St"⟩
    items := [labourItemA]
    current_item := { description := some "Labour", value := some (.num 100),
                      vat_rate := some (.num 20), cis_rate := some (.num 0),
                      retention_rate := some (.num 0), discount_rate := some (.num 0) }
    last_add_another_response := some "submit"
    reference_number := "INV-SESS"
    session_id := "sess" }

/-- An aligned session at step `item_value` whose scratch item already has a
description, used to exhibit that the value step accepts a negative
number. -/
def exValueStep : Session :=
  { step := "item_value"
    invoice_type := some .deposit
    client_info := some ⟨"Acme Ltd", "1 High St"⟩
    items := []
    current_item := { description := some "Labour" }
    last_add_another_response := none
    reference_number := "INV-SESS"
    session_id := "sess" }

/-- The same session at `item_discount` with the negative value stored, one
input away from appending a non-positive item. -/
def exDiscountStep : Session :=
  { step := "item_discount"
    invoice_type := some .deposit
    client_info := some ⟨"Acme Ltd", "1 High St"⟩
    items := []
    current_item := { description := some "Labour", value := some (.num (-5)) }
    last_add_another_response := none
    reference_number := "INV-SESS"
    session_id := "sess" }

end Aligned

/-! ## Helper lemmas -/

/-- Replacing the step field by its current value is the identity. -/
theorem Store.withStep_self_combined {s : Store.Session} {st : String} (h : s.step = st) :
    { s with step := st } = s := by
  cases s
  cases h
  rfl

/-- Replacing the step field by its current value is the identity (aligned). -/
theorem Aligned.withStep_self_aligned {s : Aligned.Session} {st : String} (h : s.step = st) :
    { s with step := st } = s := by
  cases s
  cases h
  rfl

/-- A successful `store_step_result` call factors into a successful dispatch
and a successful save. -/
theorem Store.store_ok_split {s s' : Store.Session} {st : String} {input : Option Json}
    {ok : Bool} (h : Store.store_step_result s st input ok = (s', none)) :
    Store.storeDispatch s st input = .ok s' ∧ ok = true := by
  unfold Store.store_step_result at h
  cases hd : Store.storeDispatch s st input with
  | error e => rw [hd] at h; simp at h
  | ok s1 =>
      rw [hd] at h
      cases ok with
      | true => simp at h; subst h; exact ⟨rfl, rfl⟩
      | false => simp at h

/-- A successful `client_info` store sets exactly the client record. -/
theorem Store.storeClientInfo_ok {s s' : Store.Session} {j : Json}
    (h : Store.storeClientInfo s (some j) = .ok s') :
    ∃ c, s' = { s with client_info := some c } := by
  simp only [Store.storeClientInfo] at h
  split at h
  · exact absurd h (by simp)
  · split at h
    · exact absurd h (by simp)
    · split at h
      · rename_i n a hn ha
        exact ⟨⟨n, a⟩, ((Except.ok.injEq _ _).mp h).symm⟩
      · exact absurd h (by simp)

/-- A successful `invoice_details` store sets exactly the details record. -/
theorem Store.storeInvoiceDetails_ok {s s' : Store.Session} {j : Json}
    (h : Store.storeInvoiceDetails s (some j) = .ok s') :
    ∃ d, s' = { s with invoice_details := some d } := by
  simp only [Store.storeInvoiceDetails] at h
  split at h
  · exact absurd h (by simp)
  · split at h
    · exact absurd h (by simp)
    · rename_i t ht
      split at h
      · exact absurd h (by simp)
      · split at h
        · exact absurd h (by simp)
        · rename_i d hd
          exact ⟨⟨t, d⟩, ((Except.ok.injEq _ _).mp h).symm⟩

/-- A successful item store appends exactly one item, whose value is
positive, whose description is non-empty, and whose rates default to 0 when
the corresponding key is absent from the input. -/
theorem Store.storeItem_ok {s s' : Store.Session} {j : Json}
    (h : Store.storeItem s (some j) = .ok s') :
    ∃ it : InvoiceItem, s' = { s with items := s.items ++ [it] } ∧
      PyFloat.le0 it.value = false ∧
      it.description ≠ "" ∧
      (j.get? "vat_rate" = none → it.vat_rate = .num 0) ∧
      (j.get? "cis_rate" = none → it.cis_rate = .num 0) ∧
      (j.get? "retention_rate" = none → it.retention_rate = .num 0) ∧
      (j.get? "discount_rate" = none → it.discount_rate = .num 0) := by
  simp only [Store.storeItem] at h
  split at h
  · rename_i desc v vat cis ret disc hdesc hv hvat hcis hret hdisc
    split at h
    · exact absurd h (by simp)
    · split at h
      · exact absurd h (by simp)
      · rename_i hne hle
        refine ⟨⟨desc, v, vat, cis, ret, disc⟩, ((Except.ok.injEq _ _).mp h).symm,
          by simpa using hle, hne, ?_, ?_, ?_, ?_⟩
        · intro h0; rw [h0] at hvat; simpa [Store.rateOf] using hvat.symm
        · intro h0; rw [h0] at hcis; simpa [Store.rateOf] using hcis.symm
        · intro h0; rw [h0] at hret; simpa [Store.rateOf] using hret.symm
        · intro h0; rw [h0] at hdisc; simpa [Store.rateOf] using hdisc.symm
  · exact absurd h (by simp)

/-- Dispatch at step `client_info` runs the client branch. -/
theorem Store.storeDispatch_client (s : Store.Session) (input : Option Json) :
    Store.storeDispatch s "client_info" input = Store.storeClientInfo s input := rfl

/-- Dispatch at step `invoice_details` runs the details branch. -/
theorem Store.storeDispatch_details (s : Store.Session) (input : Option Json) :
    Store.storeDispatch s "invoice_details" input = Store.storeInvoiceDetails s input := rfl

/-- Dispatch at an `item_`-prefixed step runs the item branch. -/
theorem Store.storeDispatch_item {st : String} (s : Store.Session) (input : Option Json)
    (h : pyStartsWith st "item_" = true) :
    Store.storeDispatch s st input = Store.storeItem s input := by
  have h1 : st ≠ "client_info" := by rintro rfl; exact absurd h (by decide)
  have h2 : st ≠ "invoice_details" := by rintro rfl; exact absurd h (by decide)
  simp [Store.storeDispatch, h, h1, h2]

/-- Dispatch at any unhandled step leaves the session untouched. -/
theorem Store.storeDispatch_other {st : String} (s : Store.Session) (input : Option Json)
    (h1 : st ≠ "client_info") (h2 : st ≠ "invoice_details")
    (h3 : pyStartsWith st "item_" = false) :
    Store.storeDispatch s st input = .ok s := by
  simp [Store.storeDispatch, h1, h2, h3]

/-- Inversion of one successful `/step` exchange. -/
theorem Store.runStep_some {s s'' : Store.Session} {input : Option Json}
    (h : Store.runStep s input = some s'') :
    s.step ≠ "welcome" ∧ ∃ s1, Store.store_step_result s s.step input true = (s1, none) ∧
      Store.advance_step s1 = .ok s'' := by
  unfold Store.runStep at h
  split at h
  · exact absurd h (by simp)
  · rename_i hw
    split at h
    · rename_i s1 hst
      refine ⟨hw, s1, hst, ?_⟩
      cases hadv : Store.advance_step s1 with
      | ok s2 => rw [hadv] at h; simp [Except.toOption] at h; rw [h]
      | error e2 => rw [hadv] at h; simp [Except.toOption] at h
    · exact absurd h (by simp)

/-- Bounded facts about the `item_N` step strings, one instance per possible
index. -/
theorem item_step_facts : ∀ n : Fin 31,
    pyStartsWith ("item_" ++ toString n.val) "item_" = true ∧
    (pySplit ("item_" ++ toString n.val) '_').getD 1 "" = toString n.val ∧
    pyInt? (toString n.val) = some (n.val : Int) ∧
    ("item_" ++ toString n.val) ≠ "welcome" ∧
    ("item_" ++ toString n.val) ≠ "client_info" ∧
    ("item_" ++ toString n.val) ≠ "invoice_details" ∧
    ("item_" ++ toString n.val) ≠ "done" ∧
    toString ((n.val : Int) + 1) = toString (n.val + 1) := by decide

/-- The step transition after a session whose step is known. -/
theorem Store.advance_of_step {s : Store.Session} {st nst : String} (h : s.step = st)
    (hn : Store.nextStepOf st = .ok nst) :
    Store.advance_step s = .ok { s with step := nst } := by
  unfold Store.advance_step
  rw [h, hn]
  rfl

/-- `item_step_facts` with a bare natural-number index. -/
theorem item_step_facts_of_lt {n : Nat} (h : n < 31) :
    pyStartsWith ("item_" ++ toString n) "item_" = true ∧
    (pySplit ("item_" ++ toString n) '_').getD 1 "" = toString n ∧
    pyInt? (toString n) = some (n : Int) ∧
    ("item_" ++ toString n) ≠ "welcome" ∧
    ("item_" ++ toString n) ≠ "client_info" ∧
    ("item_" ++ toString n) ≠ "invoice_details" ∧
    ("item_" ++ toString n) ≠ "done" ∧
    toString ((n : Int) + 1) = toString (n + 1) :=
  item_step_facts ⟨n, h⟩

/-- The transition out of an in-range `item_N` step: the next item, or `done`
at the cap. -/
theorem Store.nextStepOf_item {n : Nat} (h1 : 1 ≤ n) (h2 : n ≤ 30) :
    Store.nextStepOf ("item_" ++ toString n) =
      .ok (if n = 30 then "done" else "item_" ++ toString (n + 1)) := by
  obtain ⟨f1, f2, f3, f4, f5, f6, f8, f7⟩ := item_step_facts_of_lt (by omega : n < 31)
  unfold Store.nextStepOf
  rw [if_neg f4, if_neg f5, if_neg f6, if_pos f1, f2, f3]
  rcases eq_or_lt_of_le h2 with rfl | hlt
  · norm_num
  · have hInt : ¬((n : Int) ≥ 30) := by omega
    simp [hInt, f7]
    rw [if_neg (by omega : ¬ n = 30)]

/-- Every session reachable through the caller's discipline satisfies the
state invariant: the flow orders the sections and accumulates one item per
`item_N` step, never exceeding 30. -/
theorem Store.reachable_inv {s : Store.Session} (h : Store.Reachable s) :
    Store.SessionInv s := by
  induction h with
  | fresh sid => exact ⟨rfl, Or.inl ⟨rfl, rfl⟩⟩
  | @start t hr hw ih =>
      obtain ⟨href, hcase⟩ := ih
      refine ⟨href, Or.inr (Or.inl ⟨rfl, ?_⟩)⟩
      rcases hcase with ⟨_, hit⟩ | ⟨hstep, _⟩ | ⟨hstep, _, _⟩ |
        ⟨n, hn1, hn2, hstep, _, _, _⟩ | ⟨hstep, _, _, _⟩
      · exact hit
      · rw [hw] at hstep; exact absurd hstep (by decide)
      · rw [hw] at hstep; exact absurd hstep (by decide)
      · obtain ⟨-, -, -, f4, -, -, -, -⟩ := item_step_facts_of_lt (show n < 31 by omega)
        rw [hw] at hstep; exact absurd hstep.symm f4
      · rw [hw] at hstep; exact absurd hstep (by decide)
  | @step t t' input hr hrun ih =>
      obtain ⟨href, hcase⟩ := ih
      obtain ⟨hw, s1, hst, hadv⟩ := Store.runStep_some hrun
      rcases hcase with ⟨hstep, hit⟩ | ⟨hstep, hit⟩ | ⟨hstep, hci, hit⟩ |
        ⟨n, hn1, hn2, hstep, hci, hiv, hlen⟩ | ⟨hstep, hci, hiv, hlen⟩
      · exact absurd hstep hw
      · -- at client_info: the store sets the client record, the step advances
        rw [hstep] at hst
        obtain ⟨hd, -⟩ := Store.store_ok_split hst
        rw [Store.storeDispatch_client] at hd
        cases input with
        | none => simp [Store.storeClientInfo] at hd
        | some j =>
            obtain ⟨c, rfl⟩ := Store.storeClientInfo_ok hd
            rw [Store.advance_of_step
              (show ({ t with client_info := some c } : Store.Session).step = "client_info"
                from hstep) rfl] at hadv
            have hs' := ((Except.ok.injEq _ _).mp hadv)
            subst hs'
            exact ⟨href, Or.inr (Or.inr (Or.inl ⟨rfl, rfl, hit⟩))⟩
      · -- at invoice_details: the store sets the details record
        rw [hstep] at hst
        obtain ⟨hd, -⟩ := Store.store_ok_split hst
        rw [Store.storeDispatch_details] at hd
        cases input with
        | none => simp [Store.storeInvoiceDetails] at hd
        | some j =>
            obtain ⟨d, rfl⟩ := Store.storeInvoiceDetails_ok hd
            rw [Store.advance_of_step
              (show ({ t with invoice_details := some d } : Store.Session).step =
                "invoice_details" from hstep) rfl] at hadv
            have hs' := ((Except.ok.injEq _ _).mp hadv)
            subst hs'
            refine ⟨href, Or.inr (Or.inr (Or.inr (Or.inl
              ⟨1, le_refl 1, by omega, rfl, hci, rfl, ?_⟩)))⟩
            simp [hit]
      · -- at item_n: the store appends one item, the step advances or caps
        obtain ⟨f1, f2, f3, f4, f5, f6, f8, f7⟩ := item_step_facts_of_lt (show n < 31 by omega)
        rw [hstep] at hst
        obtain ⟨hd, -⟩ := Store.store_ok_split hst
        rw [Store.storeDispatch_item _ _ f1] at hd
        cases input with
        | none => simp [Store.storeItem] at hd
        | some j =>
            obtain ⟨it, rfl, hv, hdesc, -, -, -, -⟩ := Store.storeItem_ok hd
            rw [Store.advance_of_step
              (show ({ t with items := t.items ++ [it] } : Store.Session).step =
                "item_" ++ toString n from hstep) (Store.nextStepOf_item hn1 hn2)] at hadv
            have hs' := ((Except.ok.injEq _ _).mp hadv)
            subst hs'
            by_cases h30 : n = 30
            · subst h30
              refine ⟨href, Or.inr (Or.inr (Or.inr (Or.inr ⟨by simp, hci, hiv, ?_⟩)))⟩
              simp [hlen]
            · refine ⟨href, Or.inr (Or.inr (Or.inr (Or.inl
                ⟨n + 1, by omega, by omega, by simp [h30], hci, hiv, ?_⟩)))⟩
              simp [hlen]
              omega
      · -- at done: the store is a no-op, the step stays done
        rw [hstep] at hst
        obtain ⟨hd, -⟩ := Store.store_ok_split hst
        rw [Store.storeDispatch_other _ _ (by decide) (by decide) (by decide)] at hd
        have h1 := ((Except.ok.injEq _ _).mp hd)
        subst h1
        rw [Store.advance_of_step hstep rfl] at hadv
        have hs' := ((Except.ok.injEq _ _).mp hadv)
        subst hs'
        rw [Store.withStep_self_combined hstep]
        exact ⟨href, Or.inr (Or.inr (Or.inr (Or.inr ⟨hstep, hci, hiv, hlen⟩)))⟩

/-- Peeling one successful exchange off a run (combined). -/
theorem Store.runSteps_cons_combined {s s' : Store.Session} {input : Option Json}
    {rest : List (Option Json)} (h : Store.runStep s input = some s') :
    Store.runSteps s (input :: rest) = Store.runSteps s' rest := by
  simp [Store.runSteps, h]

/-- A successful run of exchanges preserves reachability (combined). -/
theorem Store.runSteps_reachable_combined {l : List (Option Json)} {s s' : Store.Session}
    (hr : Store.Reachable s) (h : Store.runSteps s l = some s') :
    Store.Reachable s' := by
  induction l generalizing s with
  | nil => simp [Store.runSteps] at h; rw [← h]; exact hr
  | cons r rest ih =>
      unfold Store.runSteps at h
      cases hstep : Store.runStep s r with
      | none => rw [hstep] at h; exact absurd h (by simp)
      | some s1 => rw [hstep] at h; exact ih (Store.Reachable.step hr hstep) h

/-- The concrete two-item session `exItem3` is reachable. -/
theorem Store.reachable_exItem3 : Store.Reachable Store.exItem3 := by
  have h0 : Store.Reachable { Store.freshSession "sess" with step := "client_info" } :=
    Store.Reachable.start (Store.Reachable.fresh "sess") rfl
  exact Store.runSteps_reachable_combined h0
    (show Store.runSteps _ [some Store.clientJson, some Store.detailsJson,
      some Store.itemJson, some Store.itemJson] = some Store.exItem3 from rfl)

/-- Peeling one successful exchange off a run (aligned). -/
theorem Aligned.runSteps_cons_aligned {s s' : Aligned.Session} {r : String} {rest : List String}
    (h : Aligned.runStep s r = some s') :
    Aligned.runSteps s (r :: rest) = Aligned.runSteps s' rest := by
  simp [Aligned.runSteps, h]

/-- A successful run of exchanges preserves reachability (aligned). -/
theorem Aligned.runSteps_reachable_aligned {l : List String} {s s' : Aligned.Session}
    (hr : Aligned.Reachable s) (h : Aligned.runSteps s l = some s') :
    Aligned.Reachable s' := by
  induction l generalizing s with
  | nil => simp [Aligned.runSteps] at h; rw [← h]; exact hr
  | cons r rest ih =>
      unfold Aligned.runSteps at h
      cases hstep : Aligned.runStep s r with
      | none => rw [hstep] at h; exact absurd h (by simp)
      | some s1 => rw [hstep] at h; exact ih (Aligned.Reachable.step hr hstep) h

/-- The entry exchanges take a fresh aligned session to the top of the item
loop. -/
theorem Aligned.entry_runs :
    Aligned.runSteps (Aligned.freshSession "sess") Aligned.entryInputs =
      some (Aligned.midSession [] none) := by rfl

set_option maxHeartbeats 1000000 in
/-- One pass of the aligned item loop, from the top of the loop with any
accumulated items: seven successful exchanges later, exactly one more item
has been appended and the flow is back at the top of the loop. -/
theorem Aligned.loop_adds (items : List InvoiceItem) (last : Option String) :
    Aligned.runSteps (Aligned.midSession items last) Aligned.loopInputs =
      some (Aligned.midSession (items ++ [Aligned.labourItemA]) (some "add")) := by
  have l1 : Aligned.runStep (Aligned.midSession items last) "Labour" =
      some { step := "item_value", invoice_type := some .deposit,
             client_info := some ⟨"Acme Ltd", "1 High St"⟩, items := items,
             current_item := { description := some "Labour" },
             last_add_another_response := last,
             reference_number := "INV-SESS", session_id := "sess" } := by rfl
  have l2 : Aligned.runStep
      { step := "item_value", invoice_type := some .deposit,
        client_info := some ⟨"Acme Ltd", "1 High St"⟩, items := items,
        current_item := { description := some "Labour" },
        last_add_another_response := last,
        reference_number := "INV-SESS", session_id := "sess" } "100" =
      some { step := "item_vat", invoice_type := some .deposit,
             client_info := some ⟨"Acme Ltd", "1 High St"⟩, items := items,
             current_item := { description := some "Labour", value := some (.num 100) },
             last_add_another_response := last,
             reference_number := "INV-SESS", session_id := "sess" } := by rfl
  have l3 : Aligned.runStep
      { step := "item_vat", invoice_type := some .deposit,
        client_info := some ⟨"Acme Ltd", "1 High St"⟩, items := items,
        current_item := { description := some "Labour", value := some (.num 100) },
        last_add_another_response := last,
        reference_number := "INV-SESS", session_id := "sess" } "\x7b\"vat_rate\": 20.0\x7d" =
      some { step := "item_cis", invoice_type := some .deposit,
             client_info := some ⟨"Acme Ltd", "1 High St"⟩, items := items,
             current_item := { description := some "Labour", value := some (.num 100),
                               vat_rate := some (.num 20) },
             last_add_another_response := last,
             reference_number := "INV-SESS", session_id := "sess" } := by rfl
  have l4 : Aligned.runStep
      { step := "item_cis", invoice_type := some .deposit,
        client_info := some ⟨"Acme Ltd", "1 High St"⟩, items := items,
        current_item := { description := some "Labour", value := some (.num 100),
                          vat_rate := some (.num 20) },
        last_add_another_response := last,
        reference_number := "INV-SESS", session_id := "sess" } "\x7b\"cis_rate\": 0.0\x7d" =
      some { step := "item_retention", invoice_type := some .deposit,
             client_info := some ⟨"Acme Ltd", "1 High St"⟩, items := items,
             current_item := { description := some "Labour", value := some (.num 100),
                               vat_rate := some (.num 20), cis_rate := some (.num 0) },
             last_add_another_response := last,
             reference_number := "INV-SESS", session_id := "sess" } := by rfl
  have l5 : Aligned.runStep
      { step := "item_retention", invoice_type := some .deposit,
        client_info := some ⟨"Acme Ltd", "1 High St"⟩, items := items,
        current_item := { description := some "Labour", value := some (.num 100),
                          vat_rate := some (.num 20), cis_rate := some (.num 0) },
        last_add_another_response := last,
        reference_number := "INV-SESS", session_id := "sess" }
        "\x7b\"retention_rate\": 0.0\x7d" =
      some { step := "item_discount", invoice_type := some .deposit,
             client_info := some ⟨"Acme Ltd", "1 High St"⟩, items := items,
             current_item := { description := some "Labour", value := some (.num 100),
                               vat_rate := some (.num 20), cis_rate := some (.num 0),
                               retention_rate := some (.num 0) },
             last_add_another_response := last,
             reference_number := "INV-SESS", session_id := "sess" } := by rfl
  have l6 : Aligned.runStep
      { step := "item_discount", invoice_type := some .deposit,
        client_info := some ⟨"Acme Ltd", "1 High St"⟩, items := items,
        current_item := { description := some "Labour", value := some (.num 100),
                          vat_rate := some (.num 20), cis_rate := some (.num 0),
                          retention_rate := some (.num 0) },
        last_add_another_response := last,
        reference_number := "INV-SESS", session_id := "sess" }
        "\x7b\"discount_rate\": 0.0\x7d" =
      some { step := "add_another", invoice_type := some .deposit,
             client_info := some ⟨"Acme Ltd", "1 High St"⟩,
             items := items ++ [Aligned.labourItemA],
             current_item := { description := some "Labour", value := some (.num 100),
                               vat_rate := some (.num 20), cis_rate := some (.num 0),
                               retention_rate := some (.num 0),
                               discount_rate := some (.num 0) },
             last_add_another_response := last,
             reference_number := "INV-SESS", session_id := "sess" } := by rfl
  have l7 : Aligned.runStep
      { step := "add_another", invoice_type := some .deposit,
        client_info := some ⟨"Acme Ltd", "1 High St"⟩,
        items := items ++ [Aligned.labourItemA],
        current_item := { description := some "Labour", value := some (.num 100),
                          vat_rate := some (.num 20), cis_rate := some (.num 0),
                          retention_rate := some (.num 0),
                          discount_rate := some (.num 0) },
        last_add_another_response := last,
        reference_number := "INV-SESS", session_id := "sess" } "add" =
      some (Aligned.midSession (items ++ [Aligned.labourItemA]) (some "add")) := by rfl
  simp only [Aligned.loopInputs]
  rw [Aligned.runSteps_cons_aligned l1, Aligned.runSteps_cons_aligned l2, Aligned.runSteps_cons_aligned l3,
      Aligned.runSteps_cons_aligned l4, Aligned.runSteps_cons_aligned l5, Aligned.runSteps_cons_aligned l6,
      Aligned.runSteps_cons_aligned l7]
  rfl

/-- After `n + 1` passes of the item loop, the aligned session is back at the
top of the loop carrying `n + 1` items: the loop enforces no cap. -/
theorem Aligned.reachable_replicate (n : Nat) :
    Aligned.Reachable (Aligned.midSession
      (List.replicate (n + 1) Aligned.labourItemA) (some "add")) := by
  induction n with
  | zero =>
      have h0 : Aligned.Reachable (Aligned.midSession [] none) :=
        Aligned.runSteps_reachable_aligned (Aligned.Reachable.fresh "sess") Aligned.entry_runs
      have h1 := Aligned.runSteps_reachable_aligned h0 (Aligned.loop_adds [] none)
      simpa using h1
  | succ k ih =>
      have h1 := Aligned.runSteps_reachable_aligned ih (Aligned.loop_adds _ _)
      rw [show List.replicate (k + 1 + 1) Aligned.labourItemA =
        List.replicate (k + 1) Aligned.labourItemA ++ [Aligned.labourItemA]
        from List.replicate_succ' ..]
      exact h1

/-- `can_generate_invoice` tests exactly the presence of the three
sections. -/
theorem Store.can_generate_iff (s : Store.Session) :
    Store.can_generate_invoice s = true ↔
      (s.client_info.isSome = true ∧ s.invoice_details.isSome = true ∧ s.items ≠ []) := by
  simp [Store.can_generate_invoice, List.length_pos, and_assoc]

/-- Assembly in the combined variant fails exactly when the
`can_generate_invoice` gate fails. -/
theorem Store.get_invoice_none_iff (s : Store.Session) :
    Store.get_invoice_data s = none ↔ Store.can_generate_invoice s = false := by
  unfold Store.get_invoice_data
  cases hc : Store.can_generate_invoice s with
  | false => simp
  | true =>
      obtain ⟨hci, hiv, -⟩ := (Store.can_generate_iff s).mp hc
      obtain ⟨c, hcc⟩ := Option.isSome_iff_exists.mp hci
      obtain ⟨d, hdd⟩ := Option.isSome_iff_exists.mp hiv
      rw [hcc, hdd]
      simp

/-- Inversion of a successful combined assembly: the invoice is rebuilt
verbatim from the stored sections. -/
theorem Store.get_invoice_some_combined {s : Store.Session} {inv : Invoice}
    (h : Store.get_invoice_data s = some inv) :
    ∃ c d, s.client_info = some c ∧ s.invoice_details = some d ∧
      inv = ⟨s.reference_number, c, d, s.items⟩ := by
  unfold Store.get_invoice_data at h
  split at h
  · split at h
    · rename_i c d hc hd
      exact ⟨c, d, hc, hd, ((Option.some.injEq _ _).mp h).symm⟩
    · exact absurd h (by simp)
  · exact absurd h (by simp)

set_option maxRecDepth 2000 in
/-- Inversion of a successful aligned assembly: the due date is recomputed
from the clock and the reference number is carried over. -/
theorem Aligned.get_invoice_some_aligned {sa : Aligned.Session} {now : Date} {inva : Invoice}
    (h : Aligned.get_invoice_data sa now = some inva) :
    inva.details.due_date = addDays now 30 ∧ inva.reference_number = sa.reference_number := by
  simp only [Aligned.get_invoice_data] at h
  split at h
  · exact absurd h (by simp)
  · split at h
    · rename_i c t hc ht
      have h2 := ((Option.some.injEq _ _).mp h).symm
      subst h2
      exact ⟨rfl, rfl⟩
    · exact absurd h (by simp)

/-- The aligned transition at the terminal step is the identity. -/
theorem Aligned.advance_done {sa : Aligned.Session} (h : sa.step = "done") :
    Aligned.advance_step sa = sa := by
  cases sa
  cases h
  rfl

/-- The aligned transition at an unknown step fails closed to `done`. -/
theorem Aligned.advance_unknown {sa : Aligned.Session} (h : sa.step ∉ Aligned.STEP_FLOW) :
    Aligned.advance_step sa = { sa with step := "done" } := by
  simp only [Aligned.STEP_FLOW, List.mem_cons, not_or] at h
  obtain ⟨h1, h2, h3, h4, h5, h6, h7, h8, h9, h10, h11, -⟩ := h
  simp [Aligned.advance_step, Aligned.STEP_FLOW, List.indexOf?, List.findIdx?, h10,
    Ne.symm h1, Ne.symm h2, Ne.symm h3, Ne.symm h4, Ne.symm h5, Ne.symm h6,
    Ne.symm h7, Ne.symm h8, Ne.symm h9, Ne.symm h10, Ne.symm h11]

/-- A successful aligned `store_step_result` call factors into a successful
dispatch and a successful save. -/
theorem Aligned.store_ok_split_aligned {s s' : Aligned.Session} {st res : String} {ok : Bool}
    (h : Aligned.store_step_result s st res ok = (s', none)) :
    Aligned.storeDispatch s st res = .ok s' ∧ ok = true := by
  unfold Aligned.store_step_result at h
  cases hd : Aligned.storeDispatch s st res with
  | error e => rw [hd] at h; simp at h
  | ok s1 =>
      rw [hd] at h
      cases ok with
      | true => simp at h; subst h; exact ⟨rfl, rfl⟩
      | false => simp at h

/-- A successful `item_vat` store whose input lacks the rate key records
rate 0 in the scratch item. -/
theorem Aligned.storeItemVat_default {s s' : Aligned.Session} {res : String} {j : Json}
    (hl : loads? res = some j) (hk : j.get? "vat_rate" = none)
    (h : Aligned.storeItemVat s res = .ok s') :
    s'.current_item.vat_rate = some (.num 0) := by
  unfold Aligned.storeItemVat at h
  split at h
  · exact absurd h (by simp)
  · rename_i j' hl'
    rw [hl] at hl'
    obtain rfl := Option.some.inj hl'
    split at h
    · exact absurd h (by simp)
    · rename_i r hr
      rw [hk] at hr
      simp only [Aligned.rateOfD] at hr
      obtain rfl := Option.some.inj hr
      have h2 := ((Except.ok.injEq _ _).mp h).symm
      rw [h2]

/-- A successful `item_cis` store whose input lacks the rate key records
rate 0 in the scratch item. -/
theorem Aligned.storeItemCis_default {s s' : Aligned.Session} {res : String} {j : Json}
    (hl : loads? res = some j) (hk : j.get? "cis_rate" = none)
    (h : Aligned.storeItemCis s res = .ok s') :
    s'.current_item.cis_rate = some (.num 0) := by
  unfold Aligned.storeItemCis at h
  split at h
  · exact absurd h (by simp)
  · rename_i j' hl'
    rw [hl] at hl'
    obtain rfl := Option.some.inj hl'
    split at h
    · exact absurd h (by simp)
    · rename_i r hr
      rw [hk] at hr
      simp only [Aligned.rateOfD] at hr
      obtain rfl := Option.some.inj hr
      have h2 := ((Except.ok.injEq _ _).mp h).symm
      rw [h2]

/-- A successful `item_retention` store whose input lacks the rate key
records rate 0 in the scratch item. -/
theorem Aligned.storeItemRetention_default {s s' : Aligned.Session} {res : String}
    {j : Json} (hl : loads? res = some j) (hk : j.get? "retention_rate" = none)
    (h : Aligned.storeItemRetention s res = .ok s') :
    s'.current_item.retention_rate = some (.num 0) := by
  unfold Aligned.storeItemRetention at h
  split at h
  · exact absurd h (by simp)
  · rename_i j' hl'
    rw [hl] at hl'
    obtain rfl := Option.some.inj hl'
    split at h
    · exact absurd h (by simp)
    · rename_i r hr
      rw [hk] at hr
      simp only [Aligned.rateOfD] at hr
      obtain rfl := Option.some.inj hr
      have h2 := ((Except.ok.injEq _ _).mp h).symm
      rw [h2]

/-- A successful `item_discount` store appends exactly one item, built from
the scratch with `.get(key, 0.0)` defaults for every rate. -/
theorem Aligned.storeItemDiscount_ok {s s' : Aligned.Session} {res : String}
    (h : Aligned.storeItemDiscount s res = .ok s') :
    ∃ j it, loads? res = some j ∧ s'.items = s.items ++ [it] ∧
      (s.current_item.vat_rate = none → it.vat_rate = .num 0) ∧
      (s.current_item.cis_rate = none → it.cis_rate = .num 0) ∧
      (s.current_item.retention_rate = none → it.retention_rate = .num 0) ∧
      (j.get? "discount_rate" = none → it.discount_rate = .num 0) := by
  unfold Aligned.storeItemDiscount at h
  split at h
  · exact absurd h (by simp)
  · rename_i j hl
    split at h
    · exact absurd h (by simp)
    · rename_i r hr
      dsimp only at h
      split at h
      · rename_i desc v hdesc hv
        have h2 := ((Except.ok.injEq _ _).mp h).symm
        subst h2
        refine ⟨j, _, hl, rfl, ?_, ?_, ?_, ?_⟩
        · intro h0; simp [h0]
        · intro h0; simp [h0]
        · intro h0; simp [h0]
        · intro h0
          rw [h0] at hr
          simp only [Aligned.rateOfD] at hr
          obtain rfl := Option.some.inj hr
          simp
      · exact absurd h (by simp)

/-! ## Claims -/

/-- C1 (amended): in the combined `item_N` variant used by `main.py`, under
the HTTP handler's store-then-advance discipline, the items list of every
reachable session holds at most 30 line items.  (The aligned per-field
variant enforces no cap; see the counterexample.) -/
theorem C1_combined_items_capped {s : Store.Session} (h : Store.Reachable s) :
    s.items.length ≤ 30 := by
  obtain ⟨-, hc⟩ := Store.reachable_inv h
  rcases hc with ⟨-, hit⟩ | ⟨-, hit⟩ | ⟨-, -, hit⟩ | ⟨n, -, hn2, -, -, -, hlen⟩ |
    ⟨-, -, -, hlen⟩
  · simp [hit]
  · simp [hit]
  · simp [hit]
  · omega
  · omega

/-- C1 witness: the cap holds at a concrete reachable session. -/
theorem C1_witness :
    Store.Reachable (Store.freshSession "w1") ∧
    (Store.freshSession "w1").items.length ≤ 30 :=
  ⟨Store.Reachable.fresh "w1", C1_combined_items_capped (Store.Reachable.fresh "w1")⟩

/-- C1 counterexample: in the aligned variant, 31 passes of the item loop —
each a sequence of successful `store_step_result` and `advance_step` calls
answering `add` to every add-another prompt — reach a session holding 31
items, exceeding the claimed cap of 30. -/
theorem C1_counterexample :
    Aligned.Reachable
      (Aligned.midSession (List.replicate 31 Aligned.labourItemA) (some "add")) ∧
    30 < (Aligned.midSession (List.replicate 31 Aligned.labourItemA)
      (some "add")).items.length := by
  refine ⟨?_, by simp [Aligned.midSession]⟩
  exact Aligned.reachable_replicate 30

/-- C2: in the combined variant, a reachable session at the terminal step
has a client record, an invoice-details record and at least one item; and
`can_generate_invoice` is true exactly when those three are present. -/
theorem C2_terminal_requires_sections {s : Store.Session} (h : Store.Reachable s) :
    (s.step = "done" → s.client_info.isSome = true ∧ s.invoice_details.isSome = true ∧
      s.items ≠ []) ∧
    (Store.can_generate_invoice s = true ↔
      (s.client_info.isSome = true ∧ s.invoice_details.isSome = true ∧ s.items ≠ [])) := by
  constructor
  · intro hdone
    obtain ⟨-, hc⟩ := Store.reachable_inv h
    rcases hc with ⟨hstep, -⟩ | ⟨hstep, -⟩ | ⟨hstep, -, -⟩ |
      ⟨n, -, hn2, hstep, -, -, -⟩ | ⟨-, hci, hiv, hlen⟩
    · rw [hdone] at hstep; exact absurd hstep (by decide)
    · rw [hdone] at hstep; exact absurd hstep (by decide)
    · rw [hdone] at hstep; exact absurd hstep (by decide)
    · obtain ⟨-, -, -, -, -, -, f8, -⟩ := item_step_facts_of_lt (show n < 31 by omega)
      rw [hdone] at hstep
      exact absurd hstep.symm f8
    · refine ⟨hci, hiv, ?_⟩
      intro hnil
      rw [hnil] at hlen
      simp at hlen
  · exact Store.can_generate_iff s

/-- C2 witness: the equivalence holds at a concrete reachable session. -/
theorem C2_witness :
    Store.Reachable (Store.freshSession "w2") ∧
    (((Store.freshSession "w2").step = "done" →
        (Store.freshSession "w2").client_info.isSome = true ∧
        (Store.freshSession "w2").invoice_details.isSome = true ∧
        (Store.freshSession "w2").items ≠ []) ∧
      (Store.can_generate_invoice (Store.freshSession "w2") = true ↔
        ((Store.freshSession "w2").client_info.isSome = true ∧
         (Store.freshSession "w2").invoice_details.isSome = true ∧
         (Store.freshSession "w2").items ≠ []))) :=
  ⟨Store.Reachable.fresh "w2",
   C2_terminal_requires_sections (Store.Reachable.fresh "w2")⟩

/-- C3 (amended): the aligned variant's assembly returns `none` (raising no
exception) for every session not at the terminal step; the combined
variant's assembly instead returns `none` exactly when the
`can_generate_invoice` gate fails, so a pre-terminal session that already
carries client info, details and an item yields an invoice. -/
theorem C3_assembly_gates {sa : Aligned.Session} {now : Date} {s : Store.Session}
    (h : sa.step ≠ "done") :
    Aligned.get_invoice_data sa now = none ∧
    (Store.get_invoice_data s = none ↔ Store.can_generate_invoice s = false) := by
  constructor
  · unfold Aligned.get_invoice_data
    rw [if_pos h]
  · exact Store.get_invoice_none_iff s

/-- C3 witness: a concrete aligned session at a pre-terminal step is refused
by assembly, and the combined gate equivalence holds at a fresh session. -/
theorem C3_witness :
    Aligned.exPreTerminal.step ≠ "done" ∧
    Aligned.get_invoice_data Aligned.exPreTerminal ⟨2025, 1, 1⟩ = none ∧
    (Store.get_invoice_data (Store.freshSession "w3") = none ↔
      Store.can_generate_invoice (Store.freshSession "w3") = false) := by
  have h := @C3_assembly_gates Aligned.exPreTerminal ⟨2025, 1, 1⟩
    (Store.freshSession "w3") (by decide)
  exact ⟨by decide, h.1, h.2⟩

/-- C3 counterexample: `exItem3` is reachable, still at step `item_3`, yet
the combined `get_invoice_data` returns an invoice rather than `none`. -/
theorem C3_counterexample :
    Store.Reachable Store.exItem3 ∧ Store.exItem3.step = "item_3" ∧
    Store.get_invoice_data Store.exItem3 = some Store.exInvoice3 ∧
    some Store.exInvoice3 ≠ (none : Option Invoice) :=
  ⟨Store.reachable_exItem3, rfl, rfl, by decide⟩

/-- C4 (amended): in the combined variant the assembled invoice's details —
including the due date — are exactly the record stored in `invoice_details`,
and the reference number is the one derived at session creation, unchanged;
in the aligned variant the reference number is likewise carried over, but
the due date is recomputed at assembly time as 30 days after the current
date rather than taken from the session. -/
theorem C4_assembled_fields {s : Store.Session} {inv : Invoice}
    (hr : Store.Reachable s) (h : Store.get_invoice_data s = some inv) :
    (∃ det, s.invoice_details = some det ∧ inv.details = det) ∧
    inv.reference_number = s.reference_number ∧
    s.reference_number = "INV-" ++ pyUpper (pyTake s.session_id 8) ∧
    (∀ (sa : Aligned.Session) (now : Date) (inva : Invoice),
      Aligned.get_invoice_data sa now = some inva →
      inva.details.due_date = addDays now 30 ∧
      inva.reference_number = sa.reference_number) := by
  obtain ⟨c, d, hc, hd2, rfl⟩ := Store.get_invoice_some_combined h
  obtain ⟨href, -⟩ := Store.reachable_inv hr
  exact ⟨⟨d, hd2, rfl⟩, rfl, href, fun sa now inva ha => Aligned.get_invoice_some_aligned ha⟩

/-- C4 witness: the field carry-over holds at the concrete reachable session
`exItem3`. -/
theorem C4_witness :
    Store.get_invoice_data Store.exItem3 = some Store.exInvoice3 ∧
    ((∃ det, Store.exItem3.invoice_details = some det ∧ Store.exInvoice3.details = det) ∧
     Store.exInvoice3.reference_number = Store.exItem3.reference_number ∧
     Store.exItem3.reference_number =
       "INV-" ++ pyUpper (pyTake Store.exItem3.session_id 8) ∧
     (∀ (sa : Aligned.Session) (now : Date) (inva : Invoice),
       Aligned.get_invoice_data sa now = some inva →
       inva.details.due_date = addDays now 30 ∧
       inva.reference_number = sa.reference_number)) :=
  ⟨rfl, C4_assembled_fields Store.reachable_exItem3 rfl⟩

set_option maxRecDepth 4000 in
/-- C4 counterexample: the aligned assembly of one and the same terminal
session yields different due dates when invoked at two different clock
readings — the due date is recomputed at assembly time, not frozen at
extraction time (the aligned session stores no due date at all). -/
theorem C4_counterexample :
    (Aligned.get_invoice_data Aligned.exDone ⟨2025, 1, 1⟩).map
      (fun i => i.details.due_date) = some ⟨2025, 1, 31⟩ ∧
    (Aligned.get_invoice_data Aligned.exDone ⟨2025, 3, 1⟩).map
      (fun i => i.details.due_date) = some ⟨2025, 3, 31⟩ ∧
    (⟨2025, 1, 31⟩ : Date) ≠ ⟨2025, 3, 31⟩ := by
  refine ⟨?_, ?_, by decide⟩
  · with_unfolding_all rfl
  · with_unfolding_all rfl

/-- C5 (amended): in the combined variant, an unknown step name that does
not begin with `item_` fails closed to `done` without raising; a corrupted
step beginning with `item_` is instead parsed as an item index — a numeric
suffix below 30 advances to the following item step, and a non-numeric
suffix raises ValueError (see the counterexample).  The aligned variant does
fail closed to `done` for every step outside its flow. -/
theorem C5_unknown_steps {s : Store.Session} {sa : Aligned.Session}
    (h1 : s.step ≠ "welcome") (h2 : s.step ≠ "client_info")
    (h3 : s.step ≠ "invoice_details") (h4 : pyStartsWith s.step "item_" = false)
    (ha : sa.step ∉ Aligned.STEP_FLOW) :
    Store.advance_step s = .ok { s with step := "done" } ∧
    Aligned.advance_step sa = { sa with step := "done" } := by
  refine ⟨?_, Aligned.advance_unknown ha⟩
  have hn : Store.nextStepOf s.step = .ok "done" := by
    unfold Store.nextStepOf
    rw [if_neg h1, if_neg h2, if_neg h3, if_neg (by simp [h4])]
  exact Store.advance_of_step rfl hn

/-- C5 witness: both variants fail closed at a concrete corrupted step. -/
theorem C5_witness :
    ({ Store.freshSession "w5" with step := "corrupt" } : Store.Session).step ≠ "welcome" ∧
    ({ Store.freshSession "w5" with step := "corrupt" } : Store.Session).step ≠ "client_info" ∧
    ({ Store.freshSession "w5" with step := "corrupt" } : Store.Session).step ≠
      "invoice_details" ∧
    pyStartsWith ({ Store.freshSession "w5" with step := "corrupt" } : Store.Session).step
      "item_" = false ∧
    ({ Aligned.freshSession "w5" with step := "corrupt" } : Aligned.Session).step ∉
      Aligned.STEP_FLOW ∧
    Store.advance_step { Store.freshSession "w5" with step := "corrupt" } =
      .ok { Store.freshSession "w5" with step := "done" } ∧
    Aligned.advance_step { Aligned.freshSession "w5" with step := "corrupt" } =
      { Aligned.freshSession "w5" with step := "done" } := by
  have h := @C5_unknown_steps { Store.freshSession "w5" with step := "corrupt" }
    { Aligned.freshSession "w5" with step := "corrupt" }
    (by decide) (by decide) (by decide) (by decide) (by decide)
  exact ⟨by decide, by decide, by decide, by decide, by decide, h.1, h.2⟩

/-- C5 counterexample: `item_0` is not a known flow step, yet the combined
`advance_step` sends it to `item_1`, not `done`; and the unknown step
`item_x` raises a ValueError instead of failing closed. -/
theorem C5_counterexample :
    Store.advance_step { Store.freshSession "c5" with step := "item_0" } =
      .ok { Store.freshSession "c5" with step := "item_1" } ∧
    ("item_1" : String) ≠ "done" ∧
    Store.advance_step { Store.freshSession "c5" with step := "item_x" } =
      .error (.valueError "invalid literal for int() with base 10: x") :=
  ⟨rfl, by decide, rfl⟩

/-- C6: at step `item_value`, text that `float()` rejects leaves the aligned
session — step, scratch item and accumulated items — unchanged, but the
exception that escapes is a TypeError, not a validation failure: every
`raise ValidationError(msg)` the code attempts (the inner raise and the
blanket handler's re-wrap alike) fails inside pydantic's constructor. -/
theorem C6_item_value_typeerror {s : Aligned.Session} {res : String}
    {ok : Bool} (_hstep : s.step = "item_value") (hbad : pyFloat? res = none) :
    Aligned.store_step_result s "item_value" res ok =
      (s, some (.typeError
        "ValidationError cannot be constructed from a message string")) := by
  have hd : Aligned.storeDispatch s "item_value" res =
      .error (.validation ("Invalid value: " ++ res)) := by
    have h1 : Aligned.storeDispatch s "item_value" res =
        Aligned.storeItemValue s res := rfl
    rw [h1]
    unfold Aligned.storeItemValue
    rw [hbad]
  unfold Aligned.store_step_result
  rw [hd]
  rfl

/-- C6 witness: the TypeError escape at the concrete non-numeric input
`abc`. -/
theorem C6_witness :
    ({ Aligned.freshSession "w6" with step := "item_value" } : Aligned.Session).step =
      "item_value" ∧
    pyFloat? "abc" = none ∧
    Aligned.store_step_result { Aligned.freshSession "w6" with step := "item_value" }
      "item_value" "abc" true =
      ({ Aligned.freshSession "w6" with step := "item_value" },
       some (.typeError
         "ValidationError cannot be constructed from a message string")) :=
  ⟨rfl, by decide,
   @C6_item_value_typeerror
     { Aligned.freshSession "w6" with step := "item_value" } "abc" true rfl (by decide)⟩

/-- C7 (amended): every item the combined `store_step_result` appends has a
non-empty description and a value on which the code's `value <= 0` test is
false, and each of the four rate fields defaults to 0 when its key is absent
from the input; the aligned variant likewise records 0 for a rate key absent
at its `item_vat`/`item_cis`/`item_retention` steps and defaults every rate
still unset when the item is built at `item_discount`.  No `[0,100]` range
is enforced on any rate, the combined guard lets `NaN` through (for which
`value <= 0` is false but which is not a positive real), and the aligned
variant enforces no positivity on the value at all — see the
counterexample. -/
theorem C7_appended_item_shape {s s' : Store.Session} {st : String} {j : Json}
    {ok : Bool} (hst : pyStartsWith st "item_" = true)
    (h : Store.store_step_result s st (some j) ok = (s', none)) :
    (∃ it : InvoiceItem, s'.items = s.items ++ [it] ∧
      PyFloat.le0 it.value = false ∧ it.description ≠ "" ∧
      (j.get? "vat_rate" = none → it.vat_rate = .num 0) ∧
      (j.get? "cis_rate" = none → it.cis_rate = .num 0) ∧
      (j.get? "retention_rate" = none → it.retention_rate = .num 0) ∧
      (j.get? "discount_rate" = none → it.discount_rate = .num 0)) ∧
    (∀ (sa sa' : Aligned.Session) (res : String) (ok2 : Bool) (jv : Json),
      Aligned.store_step_result sa "item_vat" res ok2 = (sa', none) →
      loads? res = some jv → jv.get? "vat_rate" = none →
      sa'.current_item.vat_rate = some (.num 0)) ∧
    (∀ (sa sa' : Aligned.Session) (res : String) (ok2 : Bool) (jv : Json),
      Aligned.store_step_result sa "item_cis" res ok2 = (sa', none) →
      loads? res = some jv → jv.get? "cis_rate" = none →
      sa'.current_item.cis_rate = some (.num 0)) ∧
    (∀ (sa sa' : Aligned.Session) (res : String) (ok2 : Bool) (jv : Json),
      Aligned.store_step_result sa "item_retention" res ok2 = (sa', none) →
      loads? res = some jv → jv.get? "retention_rate" = none →
      sa'.current_item.retention_rate = some (.num 0)) ∧
    (∀ (sa sa' : Aligned.Session) (res : String) (ok2 : Bool),
      Aligned.store_step_result sa "item_discount" res ok2 = (sa', none) →
      ∃ (jd : Json) (it : InvoiceItem), loads? res = some jd ∧
        sa'.items = sa.items ++ [it] ∧
        (sa.current_item.vat_rate = none → it.vat_rate = .num 0) ∧
        (sa.current_item.cis_rate = none → it.cis_rate = .num 0) ∧
        (sa.current_item.retention_rate = none → it.retention_rate = .num 0) ∧
        (jd.get? "discount_rate" = none → it.discount_rate = .num 0)) := by
  refine ⟨?_, ?_, ?_, ?_, ?_⟩
  · obtain ⟨hd, -⟩ := Store.store_ok_split h
    rw [Store.storeDispatch_item _ _ hst] at hd
    obtain ⟨it, rfl, h2, h3, h4, h5, h6, h7⟩ := Store.storeItem_ok hd
    exact ⟨it, rfl, h2, h3, h4, h5, h6, h7⟩
  · intro sa sa' res ok2 jv hs hl hk
    obtain ⟨hd, -⟩ := Aligned.store_ok_split_aligned hs
    rw [show Aligned.storeDispatch sa "item_vat" res =
          Aligned.storeItemVat sa res from rfl] at hd
    exact Aligned.storeItemVat_default hl hk hd
  · intro sa sa' res ok2 jv hs hl hk
    obtain ⟨hd, -⟩ := Aligned.store_ok_split_aligned hs
    rw [show Aligned.storeDispatch sa "item_cis" res =
          Aligned.storeItemCis sa res from rfl] at hd
    exact Aligned.storeItemCis_default hl hk hd
  · intro sa sa' res ok2 jv hs hl hk
    obtain ⟨hd, -⟩ := Aligned.store_ok_split_aligned hs
    rw [show Aligned.storeDispatch sa "item_retention" res =
          Aligned.storeItemRetention sa res from rfl] at hd
    exact Aligned.storeItemRetention_default hl hk hd
  · intro sa sa' res ok2 hs
    obtain ⟨hd, -⟩ := Aligned.store_ok_split_aligned hs
    rw [show Aligned.storeDispatch sa "item_discount" res =
          Aligned.storeItemDiscount sa res from rfl] at hd
    exact Aligned.storeItemDiscount_ok hd

/-- C7 witness: a concrete item submission without rate keys appends an item
whose value passes the guard and whose rates all default to 0, alongside the
aligned defaulting guarantees. -/
theorem C7_witness :
    pyStartsWith "item_1" "item_" = true ∧
    Store.store_step_result (Store.freshSession "w7") "item_1"
      (some Store.itemJson) true =
      ({ Store.freshSession "w7" with items := [Store.labourItem] }, none) ∧
    ((∃ it : InvoiceItem,
      ({ Store.freshSession "w7" with items := [Store.labourItem] } :
        Store.Session).items = (Store.freshSession "w7").items ++ [it] ∧
      PyFloat.le0 it.value = false ∧ it.description ≠ "" ∧
      (Store.itemJson.get? "vat_rate" = none → it.vat_rate = .num 0) ∧
      (Store.itemJson.get? "cis_rate" = none → it.cis_rate = .num 0) ∧
      (Store.itemJson.get? "retention_rate" = none → it.retention_rate = .num 0) ∧
      (Store.itemJson.get? "discount_rate" = none → it.discount_rate = .num 0)) ∧
    (∀ (sa sa' : Aligned.Session) (res : String) (ok2 : Bool) (jv : Json),
      Aligned.store_step_result sa "item_vat" res ok2 = (sa', none) →
      loads? res = some jv → jv.get? "vat_rate" = none →
      sa'.current_item.vat_rate = some (.num 0)) ∧
    (∀ (sa sa' : Aligned.Session) (res : String) (ok2 : Bool) (jv : Json),
      Aligned.store_step_result sa "item_cis" res ok2 = (sa', none) →
      loads? res = some jv → jv.get? "cis_rate" = none →
      sa'.current_item.cis_rate = some (.num 0)) ∧
    (∀ (sa sa' : Aligned.Session) (res : String) (ok2 : Bool) (jv : Json),
      Aligned.store_step_result sa "item_retention" res ok2 = (sa', none) →
      loads? res = some jv → jv.get? "retention_rate" = none →
      sa'.current_item.retention_rate = some (.num 0)) ∧
    (∀ (sa sa' : Aligned.Session) (res : String) (ok2 : Bool),
      Aligned.store_step_result sa "item_discount" res ok2 = (sa', none) →
      ∃ (jd : Json) (it : InvoiceItem), loads? res = some jd ∧
        sa'.items = sa.items ++ [it] ∧
        (sa.current_item.vat_rate = none → it.vat_rate = .num 0) ∧
        (sa.current_item.cis_rate = none → it.cis_rate = .num 0) ∧
        (sa.current_item.retention_rate = none → it.retention_rate = .num 0) ∧
        (jd.get? "discount_rate" = none → it.discount_rate = .num 0))) :=
  ⟨by decide, rfl,
   @C7_appended_item_shape (Store.freshSession "w7")
     { Store.freshSession "w7" with items := [Store.labourItem] } "item_1"
     Store.itemJson true (by decide) rfl⟩

/-- C7 counterexample: the combined store accepts a VAT rate of 250 — far
outside `[0,100]` — and appends it verbatim; it also accepts `NaN` as the
item value (`json.loads` decodes the token and `NaN <= 0` is false), so the
stored value is not a positive real; and the aligned flow accepts a negative
value at `item_value` and appends the non-positive item at `item_discount`
with no positivity check at all. -/
theorem C7_counterexample :
    (Store.store_step_result Store.exItem3 "item_3" (some Store.itemVat250Json) true =
      ({ Store.exItem3 with
          items := Store.exItem3.items ++
            [⟨"Labour", .num 100, .num 250, .num 0, .num 0, .num 0⟩] }, none) ∧
      ¬ ((250 : ℚ) ≤ 100)) ∧
    (loads? "\x7b\"description\": \"Labour\", \"value\": NaN\x7d" =
      some Store.itemNanJson ∧
     Store.store_step_result (Store.freshSession "c7") "item_1"
        (some Store.itemNanJson) true =
      ({ Store.freshSession "c7" with
          items := [⟨"Labour", .nan, .num 0, .num 0, .num 0, .num 0⟩] }, none) ∧
     PyFloat.le0 .nan = false) ∧
    (Aligned.store_step_result Aligned.exValueStep "item_value" "-5" true =
      ({ Aligned.exValueStep with
          current_item := { description := some "Labour",
                            value := some (.num (-5)) } }, none) ∧
     Aligned.store_step_result Aligned.exDiscountStep "item_discount"
        "\x7b\"discount_rate\": 0.0\x7d" true =
      ({ Aligned.exDiscountStep with
          current_item := { description := some "Labour",
                            value := some (.num (-5)),
                            discount_rate := some (.num 0) },
          items := [⟨"Labour", .num (-5), .num 0, .num 0, .num 0, .num 0⟩] }, none) ∧
     PyFloat.le0 (.num (-5)) = true) :=
  ⟨⟨rfl, by decide⟩, ⟨rfl, rfl, rfl⟩, ⟨rfl, rfl, by decide⟩⟩

/-- C8 (amended): `store_step_result` raises only `InputValidationError`:
every failure inside the operation — a user-input problem, a pydantic error,
or a persistence failure from the save — is converted by the blanket
`except Exception` handler into an `InputValidationError`, never propagated
as a distinct system failure. -/
theorem C8_store_raises_only_input_validation (s : Store.Session) (st : String)
    (input : Option Json) (ok : Bool) :
    errIsInputValidation (Store.store_step_result s st input ok).2 = true := by
  unfold Store.store_step_result
  cases hd : Store.storeDispatch s st input with
  | error e =>
      cases e with
      | jsonDecode m =>
          simp only [Store.convertErr]
          split_ifs <;> rfl
      | validation m => rfl
      | other m => rfl
  | ok s1 =>
      cases ok with
      | true => rfl
      | false => rfl

/-- C8 counterexample: a persistence failure during a valid `client_info`
submission surfaces to the caller as an `InputValidationError` — a
user-input-shaped failure — while the in-memory session has already been
mutated. -/
theorem C8_counterexample :
    Store.store_step_result (Store.freshSession "c8") "client_info"
      (some Store.clientJson) false =
      ({ Store.freshSession "c8" with client_info := some ⟨"Acme Ltd", "1 High St"⟩ },
       some (.inputValidation "Failed to process response: database error")) ∧
    (PyError.inputValidation
      "Failed to process response: database error").isInputValidation = true ∧
    { Store.freshSession "c8" with client_info := some ⟨"Acme Ltd", "1 High St"⟩ } ≠
      Store.freshSession "c8" :=
  ⟨rfl, rfl, by decide⟩

/-- C9: `done` is absorbing in both variants: one step of `advance_step`
returns `done` again, and no number of iterations leaves the terminal
step. -/
theorem C9_done_absorbing {s : Store.Session} {sa : Aligned.Session}
    (h : s.step = "done") (ha : sa.step = "done") :
    Store.advance_step s = .ok s ∧ (∀ n, Store.advanceRun s n = .ok s) ∧
    Aligned.advance_step sa = sa ∧ (∀ n, Aligned.advanceRun sa n = sa) := by
  have hadv : Store.advance_step s = .ok s := by
    rw [Store.advance_of_step h rfl, Store.withStep_self_combined h]
  have hadva : Aligned.advance_step sa = sa := Aligned.advance_done ha
  refine ⟨hadv, ?_, hadva, ?_⟩
  · intro n
    induction n with
    | zero => rfl
    | succ k ihn =>
        unfold Store.advanceRun
        rw [hadv]
        exact ihn
  · intro n
    induction n with
    | zero => rfl
    | succ k ihn =>
        unfold Aligned.advanceRun
        rw [hadva]
        exact ihn

/-- C9 witness: absorption at concrete terminal sessions. -/
theorem C9_witness :
    ({ Store.freshSession "w9" with step := "done" } : Store.Session).step = "done" ∧
    ({ Aligned.freshSession "w9" with step := "done" } : Aligned.Session).step = "done" ∧
    (Store.advance_step { Store.freshSession "w9" with step := "done" } =
        .ok { Store.freshSession "w9" with step := "done" } ∧
      (∀ n, Store.advanceRun { Store.freshSession "w9" with step := "done" } n =
        .ok { Store.freshSession "w9" with step := "done" }) ∧
      Aligned.advance_step { Aligned.freshSession "w9" with step := "done" } =
        { Aligned.freshSession "w9" with step := "done" } ∧
      (∀ n, Aligned.advanceRun { Aligned.freshSession "w9" with step := "done" } n =
        { Aligned.freshSession "w9" with step := "done" })) :=
  ⟨rfl, rfl,
   @C9_done_absorbing { Store.freshSession "w9" with step := "done" }
     { Aligned.freshSession "w9" with step := "done" } rfl rfl⟩

/-- C10: for every step name matching none of the handled kinds — including
`welcome` and `done` — the combined `store_step_result` succeeds without
raising and returns the session unchanged, merely re-persisting it; and the
HTTP handler's guard rejects exactly the step `welcome`. -/
theorem C10_unhandled_store_noop {s : Store.Session} {st : String}
    {input : Option Json} (h1 : st ≠ "client_info") (h2 : st ≠ "invoice_details")
    (h3 : pyStartsWith st "item_" = false) :
    Store.store_step_result s st input true = (s, none) ∧
    (Store.stepHandlerRejects st = true ↔ st = "welcome") := by
  constructor
  · unfold Store.store_step_result
    rw [Store.storeDispatch_other _ _ h1 h2 h3]
    rfl
  · simp [Store.stepHandlerRejects]

/-- C10 witness: a submission against a terminal (`done`) session is
silently accepted and the session is unchanged; `done` is not rejected by
the HTTP guard. -/
theorem C10_witness :
    ("done" : String) ≠ "client_info" ∧ ("done" : String) ≠ "invoice_details" ∧
    pyStartsWith "done" "item_" = false ∧
    (Store.store_step_result (Store.freshSession "w10") "done" none true =
        (Store.freshSession "w10", none) ∧
      (Store.stepHandlerRejects "done" = true ↔ ("done" : String) = "welcome")) :=
  ⟨by decide, by decide, by decide,
   @C10_unhandled_store_noop (Store.freshSession "w10") "done" none
     (by decide) (by decide) (by decide)⟩

end VoiceInvoice
